import Mathlib

/-!
Shallow embedding of the DobbeAI backend orchestrator
(`backend/app/ai.py`, `backend/app/mcp/tools.py`, `backend/app/mcp/resources.py`)
and proofs about the claims of its specification.

Python values are modelled by `PyVal`; Python exceptions by `Except PyErr`;
the process-wide mutable state (in-memory session dict, SQL store, environment
configuration, outbound notification collaborators) by an explicit `World`
record threaded through the stateful functions.  External collaborators
(Google calendar / Gmail / Slack HTTP endpoints, the OpenAI model) are
modelled at their interface boundary: the `World` carries the structured
outcome the collaborator would return when it is configured, and the model
is an oracle function parameter.  To make "the underlying operation was
invoked" observable, each registered tool operation and each real outbound
notification call records an event in `World.trace` as its first step; this
trace field is pure instrumentation and is written by no other code.
-/

namespace DobbeAI

/-- Model of a Python runtime value as used by this program: `None`, `bool`,
`int`, `str`, `list`, and string-keyed `dict` (every dict this program builds
or receives is string-keyed). Dict entries keep insertion order, as Python
dicts do. -/
inductive PyVal where
  | none
  | bool (b : Bool)
  | int (n : Int)
  | str (s : String)
  | list (xs : List PyVal)
  | dict (kvs : List (String × PyVal))

/-- Model of a raised Python exception, carrying the `str(e)` text. -/
inductive PyErr where
  | typeErr (msg : String)
  | valueErr (msg : String)
  | keyErr (k : String)
  | attrErr (msg : String)
  | indexErr (msg : String)
deriving DecidableEq

/-- Python `str(e)` of a caught exception, as used by
`except Exception as e: ... str(e)`. -/
def PyErr.toText : PyErr → String
  | .typeErr m => m
  | .valueErr m => m
  | .keyErr k => "\x27" ++ k ++ "\x27"
  | .attrErr m => m
  | .indexErr m => m

/-- Python truthiness (`bool(v)`): `None`, `False`, `0`, `""`, `[]`, `{}`
are falsy, everything else truthy. -/
def truthy : PyVal → Bool
  | .none => false
  | .bool b => b
  | .int n => n != 0
  | .str s => s ≠ ""
  | .list xs => !xs.isEmpty
  | .dict kvs => !kvs.isEmpty

/-- Lookup in an insertion-ordered association list (a Python dict body),
with a default for a missing key. -/
def pyLookupD (kvs : List (String × PyVal)) (k : String) (dflt : PyVal) : PyVal :=
  match kvs.find? (fun p => p.1 == k) with
  | some p => p.2
  | Option.none => dflt

/-- Python `d.get(k, dflt)`: only defined on dicts, raises `AttributeError`
otherwise. -/
def pyGetE (v : PyVal) (k : String) (dflt : PyVal := PyVal.none) : Except PyErr PyVal :=
  match v with
  | .dict kvs => .ok (pyLookupD kvs k dflt)
  | _ => .error (.attrErr ("object has no attribute \x27get\x27 (key " ++ k ++ ")"))

/-- Python `d[k]` on a dict: raises `KeyError` when the key is missing and
`TypeError` on a non-dict value. -/
def pyItemE (v : PyVal) (k : String) : Except PyErr PyVal :=
  match v with
  | .dict kvs =>
    match kvs.find? (fun p => p.1 == k) with
    | some p => .ok p.2
    | Option.none => .error (.keyErr k)
  | _ => .error (.typeErr ("object is not subscriptable (key " ++ k ++ ")"))

/-- Python `v == "lit"` / `v != "lit"` for a literal string: equality of a
value with a string is `False` unless the value is that string. -/
def isStrEq (v : PyVal) (s : String) : Bool :=
  match v with
  | .str t => t == s
  | _ => false

/-- Python `v is None`. -/
def PyVal.isNone : PyVal → Bool
  | .none => true
  | _ => false

/-- The decimal digit character for `d < 10`. -/
def digitChar (d : Nat) : Char := Char.ofNat (48 + d)

/-- Decimal digits of a natural number, most significant first, driven by a
fuel bound (any fuel above the digit count gives the full numeral). -/
def natDigits : Nat → Nat → List Char
  | 0, _ => []
  | fuel + 1, n => if n < 10 then [digitChar n] else natDigits fuel (n / 10) ++ [digitChar (n % 10)]

/-- Decimal rendering of a natural number (`str(n)`). -/
def natToStr (n : Nat) : String := String.mk (natDigits (n + 1) n)

/-- Decimal rendering of an integer (`str(n)`). -/
def intToStr (n : Int) : String :=
  if n < 0 then "-" ++ natToStr n.natAbs else natToStr n.toNat

mutual
/-- Python `repr(v)` (enough of it for the f-string and `str()` renderings
this program performs on non-string values). -/
def pyRepr : PyVal → String
  | .none => "None"
  | .bool b => if b then "True" else "False"
  | .int n => intToStr n
  | .str s => "\x27" ++ s ++ "\x27"
  | .list xs => "[" ++ pyReprJoin xs ++ "]"
  | .dict kvs => "\x7b" ++ pyReprJoinKV kvs ++ "\x7d"

/-- Comma-joined `repr` of list elements. -/
def pyReprJoin : List PyVal → String
  | [] => ""
  | [x] => pyRepr x
  | x :: y :: rest => pyRepr x ++ ", " ++ pyReprJoin (y :: rest)

/-- Comma-joined `repr` of dict entries. -/
def pyReprJoinKV : List (String × PyVal) → String
  | [] => ""
  | [p] => "\x27" ++ p.1 ++ "\x27: " ++ pyRepr p.2
  | p :: q :: rest => "\x27" ++ p.1 ++ "\x27: " ++ pyRepr p.2 ++ ", " ++ pyReprJoinKV (q :: rest)
end

/-- Python `str(v)` as interpolated by an f-string: identity on strings,
`repr`-style rendering otherwise. -/
def pyStr (v : PyVal) : String :=
  match v with
  | .str s => s
  | _ => pyRepr v

mutual
/-- Model of `json.dumps` with default separators, as used for the unknown-tool
fallback rendering and the tool-result echo to the model. -/
def dumps : PyVal → String
  | .none => "null"
  | .bool b => if b then "true" else "false"
  | .int n => intToStr n
  | .str s => "\"" ++ s ++ "\""
  | .list xs => "[" ++ dumpsJoin xs ++ "]"
  | .dict kvs => "\x7b" ++ dumpsJoinKV kvs ++ "\x7d"

/-- Comma-joined `json.dumps` of list elements. -/
def dumpsJoin : List PyVal → String
  | [] => ""
  | [x] => dumps x
  | x :: y :: rest => dumps x ++ ", " ++ dumpsJoin (y :: rest)

/-- Comma-joined `json.dumps` of dict entries. -/
def dumpsJoinKV : List (String × PyVal) → String
  | [] => ""
  | [p] => "\"" ++ p.1 ++ "\": " ++ dumps p.2
  | p :: q :: rest => "\"" ++ p.1 ++ "\": " ++ dumps p.2 ++ ", " ++ dumpsJoinKV (q :: rest)
end

/-- Whether the character list `pat` is a prefix of `txt`. -/
def isPrefixL : List Char → List Char → Bool
  | [], _ => true
  | _ :: _, [] => false
  | p :: ps, c :: cs => p == c && isPrefixL ps cs

/-- Whether `pat` occurs as a contiguous substring of `txt`
(Python `pat in txt` on strings; the empty pattern always matches). -/
def containsSub (txt pat : List Char) : Bool :=
  if isPrefixL pat txt then true
  else
    match txt with
    | [] => false
    | _ :: rest => containsSub rest pat

/-- Python `sub in s` on strings. -/
def pyIn (sub s : String) : Bool :=
  containsSub s.toList sub.toList

/-- Python `str.title()` restricted to ASCII letters: the first letter of
every alphabetic run is uppercased and the rest lowercased. -/
def pyTitleGo : Bool → List Char → List Char
  | _, [] => []
  | prevAlpha, c :: cs =>
    if c.isAlpha then
      (if prevAlpha then c.toLower else c.toUpper) :: pyTitleGo true cs
    else
      c :: pyTitleGo false cs

/-- Python `s.title()`. -/
def pyTitle (s : String) : String :=
  String.mk (pyTitleGo false s.toList)

/-- Python `s.lower()` (ASCII). -/
def strLower (s : String) : String :=
  String.mk (s.toList.map Char.toLower)

/-- Python `s.strip()`: drop leading and trailing whitespace. -/
def strTrim (s : String) : String :=
  String.mk (((s.toList.dropWhile Char.isWhitespace).reverse.dropWhile Char.isWhitespace).reverse)

/-- Python `s.startswith(p)`. -/
def strStartsWith (s p : String) : Bool :=
  isPrefixL p.toList s.toList

/-- Python `s.replace(pat, rep)` scan: all non-overlapping occurrences, left
to right; a match consumes the head character now and the remaining
`pat.length - 1` matched characters through the skip counter (this program
never calls it with an empty pattern). -/
def replaceGo (rep pat : List Char) : Nat → List Char → List Char
  | _, [] => []
  | 0, c :: rest =>
    if isPrefixL pat (c :: rest) && !pat.isEmpty then
      rep ++ replaceGo rep pat (pat.length - 1) rest
    else c :: replaceGo rep pat 0 rest
  | k + 1, _ :: rest => replaceGo rep pat k rest

/-- Python `s.replace(pat, rep)`. -/
def strReplace (s pat rep : String) : String :=
  String.mk (replaceGo rep.toList pat.toList 0 s.toList)

/-- The whitespace-delimited token scan behind Python `split()`: `cur` holds
the reversed characters of the token being read. -/
def wsTokensGo (cur : List Char) : List Char → List (List Char)
  | [] => if cur.isEmpty then [] else [cur.reverse]
  | c :: rest =>
    if c.isWhitespace then
      (if cur.isEmpty then wsTokensGo [] rest else cur.reverse :: wsTokensGo [] rest)
    else wsTokensGo (c :: cur) rest

/-- Python `s.split()` (split on whitespace runs, dropping empty pieces). -/
def pySplitWs (s : String) : List String :=
  (wsTokensGo [] s.toList).map String.mk

/-- Python `"\n".join(lines)`. -/
def joinNL : List String → String
  | [] => ""
  | [x] => x
  | x :: y :: rest => x ++ "\n" ++ joinNL (y :: rest)

/-- Proleptic Gregorian calendar date (`datetime.date`). -/
structure PyDate where
  year : Nat
  month : Nat
  day : Nat
deriving DecidableEq

/-- Time of day (`datetime.time`; this program never uses sub-second
precision). -/
structure PyTime where
  hour : Nat
  minute : Nat
  second : Nat
deriving DecidableEq

/-- A `datetime.datetime` value. -/
structure PyDateTime where
  date : PyDate
  time : PyTime
deriving DecidableEq

/-- Gregorian leap-year test. -/
def isLeap (y : Nat) : Bool :=
  y % 4 == 0 && (y % 100 != 0 || y % 400 == 0)

/-- Number of days of month `m` in year `y`. -/
def daysInMonth (y m : Nat) : Nat :=
  if m == 2 then (if isLeap y then 29 else 28)
  else if m == 4 || m == 6 || m == 9 || m == 11 then 30
  else 31

/-- The day after `d` (`d + timedelta(days=1)`). -/
def succDate (d : PyDate) : PyDate :=
  if d.day < daysInMonth d.year d.month then ⟨d.year, d.month, d.day + 1⟩
  else if d.month < 12 then ⟨d.year, d.month + 1, 1⟩
  else ⟨d.year + 1, 1, 1⟩

/-- The day before `d` (`d - timedelta(days=1)`). -/
def predDate (d : PyDate) : PyDate :=
  if d.day > 1 then ⟨d.year, d.month, d.day - 1⟩
  else if d.month > 1 then ⟨d.year, d.month - 1, daysInMonth d.year (d.month - 1)⟩
  else ⟨d.year - 1, 12, 31⟩

/-- Days elapsed before month `m` in year `y`. -/
def daysBeforeMonth (y m : Nat) : Nat :=
  (List.range (m - 1)).foldl (fun acc i => acc + daysInMonth y (i + 1)) 0

/-- Proleptic Gregorian day ordinal of a date (`date.toordinal()`): days in
the full years before `year` — counting leap years among them with the
`(year - 1)`-based terms — plus the days elapsed in the current year. -/
def PyDate.ord (d : PyDate) : Nat :=
  365 * (d.year - 1) + (d.year - 1) / 4 - (d.year - 1) / 100 + (d.year - 1) / 400
    + daysBeforeMonth d.year d.month + d.day

/-- Python `date` ordering `d ≤ e`. -/
def dateLe (d e : PyDate) : Bool :=
  d.ord ≤ e.ord

/-- Left-pad a numeral with zeros to the given width. -/
def padNum (width n : Nat) : String :=
  let s := natToStr n
  if s.length < width then String.mk (List.replicate (width - s.length) '0') ++ s
  else s

/-- Python `date.isoformat()`: `YYYY-MM-DD`. -/
def PyDate.isoformat (d : PyDate) : String :=
  padNum 4 d.year ++ "-" ++ padNum 2 d.month ++ "-" ++ padNum 2 d.day

/-- Python `time.isoformat()`: `HH:MM:SS`. -/
def PyTime.isoformat (t : PyTime) : String :=
  padNum 2 t.hour ++ ":" ++ padNum 2 t.minute ++ ":" ++ padNum 2 t.second

/-- Python `datetime.isoformat()`: `YYYY-MM-DDTHH:MM:SS`. -/
def PyDateTime.isoformat (dt : PyDateTime) : String :=
  dt.date.isoformat ++ "T" ++ dt.time.isoformat

/-- Python `dt + timedelta(hours=1)`. -/
def addHour (dt : PyDateTime) : PyDateTime :=
  if dt.time.hour + 1 < 24 then ⟨dt.date, ⟨dt.time.hour + 1, dt.time.minute, dt.time.second⟩⟩
  else ⟨succDate dt.date, ⟨0, dt.time.minute, dt.time.second⟩⟩

/-- Read exactly `n` leading decimal digits as a number. -/
def readDigits : Nat → Nat → List Char → Option (Nat × List Char)
  | 0, acc, cs => some (acc, cs)
  | n + 1, acc, cs =>
    match cs with
    | c :: rest => if c.isDigit then readDigits n (acc * 10 + (c.toNat - 48)) rest else Option.none
    | [] => Option.none

/-- Shape parse of an ISO `YYYY-MM-DD[<sep>HH:MM[:SS]]` string: the raw
numeric fields, before range validation. -/
def isoShape (cs : List Char) : Option (Nat × Nat × Nat × Nat × Nat × Nat) := do
  let (y, cs) ← readDigits 4 0 cs
  let cs ← (match cs with | '-' :: rest => some rest | _ => Option.none)
  let (mo, cs) ← readDigits 2 0 cs
  let cs ← (match cs with | '-' :: rest => some rest | _ => Option.none)
  let (d, cs) ← readDigits 2 0 cs
  match cs with
  | [] => some (y, mo, d, 0, 0, 0)
  | _ :: cs =>
    let (h, cs) ← readDigits 2 0 cs
    let cs ← (match cs with | ':' :: rest => some rest | _ => Option.none)
    let (mi, cs) ← readDigits 2 0 cs
    match cs with
    | [] => some (y, mo, d, h, mi, 0)
    | ':' :: cs =>
      let (sec, cs) ← readDigits 2 0 cs
      match cs with
      | [] => some (y, mo, d, h, mi, sec)
      | _ => Option.none
    | _ => Option.none

/-- Model of `datetime.fromisoformat` for the formats this program produces
and consumes (`YYYY-MM-DD` and `YYYY-MM-DD<sep>HH:MM[:SS]`): shape errors and
out-of-range fields raise `ValueError` exactly as CPython's constructor
validation does; a non-string argument raises `TypeError`. -/
def fromisoformat (v : PyVal) : Except PyErr PyDateTime :=
  match v with
  | .str s =>
    match isoShape s.toList with
    | Option.none => .error (.valueErr ("Invalid isoformat string: \x27" ++ s ++ "\x27"))
    | some (y, mo, d, h, mi, sec) =>
      if mo < 1 || 12 < mo then .error (.valueErr "month must be in 1..12")
      else if d < 1 || daysInMonth y mo < d then .error (.valueErr "day is out of range for month")
      else if 23 < h then .error (.valueErr "hour must be in 0..23")
      else if 59 < mi then .error (.valueErr "minute must be in 0..59")
      else if 59 < sec then .error (.valueErr "second must be in 0..59")
      else .ok ⟨⟨y, mo, d⟩, ⟨h, mi, sec⟩⟩
  | _ => .error (.typeErr "fromisoformat: argument must be str")

/-- A row of the `doctors` table (`app/models.py`). -/
structure Doctor where
  id : Nat
  name : String
deriving DecidableEq

/-- A row of the `appointments` table (`app/models.py`); the string columns
hold the rendered text that SQLAlchemy would store. -/
structure Appointment where
  id : Nat
  doctor_id : Nat
  patient_name : String
  date : PyDate
  start_time : PyTime
  end_time : PyTime
  reason : String
deriving DecidableEq

/-- The scheduling store consumed through `SessionLocal()`: doctor and
appointment rows plus the autoincrement counter for appointment ids. -/
structure DB where
  doctors : List Doctor
  appointments : List Appointment
  nextApptId : Nat
deriving DecidableEq

/-- One conversational turn as stored by the session dict in `ai.py`
(`{"role": ..., "content": ..., "time": ...}`). -/
structure Turn where
  role : String
  content : String
  time : Nat
deriving DecidableEq

/-- Process-wide state threaded through the stateful functions: the in-memory
session dict, the scheduling store, the orchestrator clock, the configuration
of the notification collaborators, the structured outcomes those collaborators
return when configured, and the instrumentation trace of invoked operations
and outbound calls. -/
structure World where
  sessions : List (String × List Turn)
  db : DB
  today : PyDate
  nowTs : Nat
  freshSid : String
  googleCreds : Bool
  slackWebhook : Option String
  calendarApiResult : PyVal
  emailApiResult : PyVal
  slackApiResult : PyVal
  trace : List String

/-- Record an invocation event in the instrumentation trace. -/
def World.push (w : World) (ev : String) : World :=
  { w with trace := ev :: w.trace }

/-- Python dict membership `k in d` for the session dict. -/
def hasKey (kvs : List (String × List Turn)) (k : String) : Bool :=
  kvs.any (fun p => p.1 == k)

/-- Python dict read `d.get(k, [])` for the session dict. -/
def sessGet (kvs : List (String × List Turn)) (k : String) : List Turn :=
  match kvs.find? (fun p => p.1 == k) with
  | some p => p.2
  | Option.none => []

/-- Python dict write `d[k] = v` for the session dict: updates the existing
entry in place, or appends a new entry (insertion order). -/
def sessSet (kvs : List (String × List Turn)) (k : String) (v : List Turn) : List (String × List Turn) :=
  if hasKey kvs k then kvs.map (fun p => if p.1 == k then (p.1, v) else p)
  else kvs ++ [(k, v)]

/-- `SESSION_MAX_LEN` from `ai.py`. -/
def SESSION_MAX_LEN : Nat := 20

/-- `create_session` from `ai.py`: mint a fresh session id (modelled by the
`freshSid` field of the world in place of `uuid.uuid4()`) and bind it to an
empty turn list. -/
def create_session (w : World) : String × World :=
  (w.freshSid, { w with sessions := sessSet w.sessions w.freshSid [] })

/-- `append_session` from `ai.py`: create the session implicitly if unknown,
append the turn stamped with the current time, and enforce the
`SESSION_MAX_LEN` cap by keeping the most recent turns. -/
def append_session (w : World) (session_id role content : String) : World :=
  let ss := if hasKey w.sessions session_id then w.sessions
            else sessSet w.sessions session_id []
  let cur := sessGet ss session_id
  let l2 := cur ++ [⟨role, content, w.nowTs⟩]
  let l3 := if SESSION_MAX_LEN < l2.length then l2.drop (l2.length - SESSION_MAX_LEN) else l2
  { w with sessions := sessSet ss session_id l3 }

/-- `get_session_history` from `ai.py`. -/
def get_session_history (w : World) (session_id : String) : List Turn :=
  sessGet w.sessions session_id

/-- `send_calendar_event_google` from `mcp/resources.py`, modelled at the
collaborator boundary: with no obtainable Google credentials it returns the
simulated-success outcome; with credentials the event insertion is an external
call whose structured outcome the world supplies (the surrounding
`try/except` already folds failures into that outcome). -/
def send_calendar_event_google (w : World) (_doctor_name _patient_name _start_iso _end_iso : String) : PyVal × World :=
  if w.googleCreds then (w.calendarApiResult, w.push "calendar_api")
  else (.dict [("ok", .bool true), ("source", .str "simulated_calendar"),
               ("note", .str "missing_credentials_or_token")], w)

/-- `send_email_gmail_api` from `mcp/resources.py`, modelled at the
collaborator boundary as for the calendar call. -/
def send_email_gmail_api (w : World) (_to_email _subject _body_text : String) : PyVal × World :=
  if w.googleCreds then (w.emailApiResult, w.push "gmail_api")
  else (.dict [("ok", .bool true), ("source", .str "simulated_email"),
               ("note", .str "missing_credentials_or_token")], w)

/-- `send_calendar_event_stub` from `mcp/resources.py`. -/
def send_calendar_event_stub (w : World) (doctor_name patient_name start_iso end_iso : String) : PyVal × World :=
  let (res, w) := send_calendar_event_google w doctor_name patient_name start_iso end_iso
  if res.isNone then
    (.dict [("ok", .bool true), ("source", .str "simulated"),
            ("note", .str "calendar_skipped_no_creds")], w)
  else (res, w)

/-- `send_email_stub` from `mcp/resources.py`. -/
def send_email_stub (w : World) (to_email subject body : String) : PyVal × World :=
  let (res, w) := send_email_gmail_api w to_email subject body
  if res.isNone then
    (.dict [("ok", .bool true), ("source", .str "simulated"),
            ("note", .str "email_skipped_no_creds")], w)
  else (res, w)

/-- `daterange` from `mcp/resources.py`: the dates from `start_date` to
`end_date` inclusive (empty when `start_date > end_date`); the generator loop
is driven by the day-ordinal distance. -/
def daterangeGo : Nat → PyDate → List PyDate
  | 0, _ => []
  | n + 1, d => d :: daterangeGo n (succDate d)

/-- `daterange` from `mcp/resources.py`. -/
def daterange (start_date end_date : PyDate) : List PyDate :=
  if dateLe start_date end_date then daterangeGo (end_date.ord + 1 - start_date.ord) start_date
  else []

/-- `time_to_iso` from `mcp/resources.py`:
`datetime.combine(d, t).isoformat()`. -/
def time_to_iso (dt_date : PyDate) (dt_time : PyTime) : String :=
  PyDateTime.isoformat ⟨dt_date, dt_time⟩

/-- `parse_time_of_day_filter` from `mcp/resources.py`: returns the
`(start_hour, end_hour)` clinic window; a truthy non-string argument would
fail at `.lower()` with `AttributeError`. -/
def parse_time_of_day_filter (time_of_day : PyVal) : Except PyErr (Nat × Nat) :=
  if truthy time_of_day = false then .ok (9, 17)
  else
    match time_of_day with
    | .str s =>
      let t := strLower s
      if t = "morning" then .ok (9, 12)
      else if t = "afternoon" then .ok (12, 16)
      else if t = "evening" then .ok (16, 19)
      else .ok (9, 17)
    | _ => .error (.attrErr "object has no attribute \x27lower\x27")

/-- Python `.title()` on a value: only strings have the attribute. -/
def pyTitleE (v : PyVal) : Except PyErr String :=
  match v with
  | .str s => .ok (pyTitle s)
  | _ => .error (.attrErr "object has no attribute \x27title\x27")

/-- Iterating a value in a `for` loop: only lists are iterable in this model. -/
def pyIterE (v : PyVal) : Except PyErr (List PyVal) :=
  match v with
  | .list xs => .ok xs
  | _ => .error (.typeErr "object is not iterable")

/-- Python list slicing `v[:n]`: defined on lists, `TypeError` otherwise. -/
def pySliceE (v : PyVal) (n : Nat) : Except PyErr (List PyVal) :=
  match v with
  | .list xs => .ok (xs.take n)
  | _ => .error (.typeErr "object is not subscriptable")

/-- `SLOT_MINUTES` from `mcp/tools.py`. -/
def SLOT_MINUTES : Nat := 60

/-- `_normalize_doc_name` from `mcp/tools.py`. -/
def _normalize_doc_name (name : String) : String :=
  if name = "" then ""
  else
    let name := strLower (strTrim name)
    if !(strStartsWith name "dr") then "dr. " ++ name
    else strTrim (strReplace (strReplace name "  " " ") "dr " "dr. ")

/-- `_get_doctor_by_name` from `mcp/tools.py`: `None` for a falsy name,
otherwise the first doctor whose lowercased stored name equals the normalized
target; a truthy non-string name fails at `.strip()`. -/
def _get_doctor_by_name (db : DB) (doctor_name : PyVal) : Except PyErr (Option Doctor) :=
  if truthy doctor_name = false then .ok Option.none
  else
    match doctor_name with
    | .str s => .ok (db.doctors.find? (fun d => strLower d.name == _normalize_doc_name s))
    | _ => .error (.attrErr "object has no attribute \x27strip\x27")

/-- `_existing_slots_for_date` from `mcp/tools.py`: the start times of the
doctor's appointments on the given date. -/
def _existing_slots_for_date (db : DB) (doctor_id : Nat) (target_date : PyDate) : List PyTime :=
  ((db.appointments.filter (fun a => a.doctor_id == doctor_id && a.date == target_date)).map
    (fun a => a.start_time))

/-- The slot record appended by the availability loop in
`get_doctor_availability`. -/
def slotDict (single_date : PyDate) (hour : Nat) : PyVal :=
  let slot_start : PyTime := ⟨hour, 0, 0⟩
  let slot_end : PyTime := ⟨hour + SLOT_MINUTES / 60, 0, 0⟩
  .dict [("date", .str single_date.isoformat),
         ("start_time", .str slot_start.isoformat),
         ("end_time", .str slot_end.isoformat),
         ("start_iso", .str (time_to_iso single_date slot_start)),
         ("end_iso", .str (time_to_iso single_date slot_end))]

/-- The body of the hourly-slot `while` loop of `get_doctor_availability`,
driven by the remaining iteration count `end_hour - hour` (the loop steps by
`SLOT_MINUTES / 60 = 1`): each offered hour's start time must not be among
the existing bookings. -/
def gen_slots_go (single_date : PyDate) (existing : List PyTime) : Nat → Nat → List PyVal
  | _, 0 => []
  | hour, n + 1 =>
    let slot_start : PyTime := ⟨hour, 0, 0⟩
    (if slot_start ∈ existing then [] else [slotDict single_date hour])
      ++ gen_slots_go single_date existing (hour + SLOT_MINUTES / 60) n

/-- The hourly-slot `while` loop of `get_doctor_availability`: from
`start_hour` up to (excluding) `end_hour`. -/
def gen_slots (single_date : PyDate) (existing : List PyTime) (hour end_hour : Nat) : List PyVal :=
  gen_slots_go single_date existing hour (end_hour - hour)

/-- `get_doctor_availability` from `mcp/tools.py`. -/
def get_doctor_availability (w : World) (doctor_name start_date_str end_date_str time_of_day : PyVal) : Except PyErr PyVal × World :=
  let w := w.push "get_doctor_availability"
  ((do
    match ← _get_doctor_by_name w.db doctor_name with
    | Option.none =>
      pure (PyVal.dict [("ok", .bool false),
        ("error", .str ("Doctor \x27" ++ pyStr doctor_name ++ "\x27 not found"))])
    | some doc => do
      let sdt ← fromisoformat start_date_str
      let start_date := sdt.date
      let end_date ← if truthy end_date_str then
          (fromisoformat end_date_str).map (fun dt => dt.date)
        else pure start_date
      let (start_hour, end_hour) ← parse_time_of_day_filter time_of_day
      let available := (daterange start_date end_date).foldl
        (fun acc single_date =>
          acc ++ gen_slots single_date (_existing_slots_for_date w.db doc.id single_date)
            start_hour end_hour) []
      pure (PyVal.dict [("ok", .bool true), ("doctor", .str doc.name),
        ("available_slots", .list available)])
   : Except PyErr PyVal), w)

/-- `create_appointment` from `mcp/tools.py`: conflict check atomic with the
insert, then the calendar and email stubs are attempted; the string columns
store the rendered text of the supplied values. -/
def create_appointment (w : World) (doctor_name patient_name patient_email start_iso end_iso reason : PyVal) : Except PyErr PyVal × World :=
  let w := w.push "create_appointment"
  match _get_doctor_by_name w.db doctor_name with
  | .error e => (.error e, w)
  | .ok Option.none =>
    (.ok (.dict [("ok", .bool false),
      ("error", .str ("Doctor \x27" ++ pyStr doctor_name ++ "\x27 not found"))]), w)
  | .ok (some doc) =>
    match fromisoformat start_iso with
    | .error e => (.error e, w)
    | .ok start_dt =>
      match fromisoformat end_iso with
      | .error e => (.error e, w)
      | .ok end_dt =>
        match w.db.appointments.find? (fun a =>
            a.doctor_id == doc.id && a.date == start_dt.date && a.start_time == start_dt.time) with
        | some _ => (.ok (.dict [("ok", .bool false), ("error", .str "Slot already booked")]), w)
        | Option.none =>
          let appt : Appointment :=
            ⟨w.db.nextApptId, doc.id, pyStr patient_name, start_dt.date, start_dt.time,
             end_dt.time, if truthy reason then pyStr reason else ""⟩
          let w := { w with db := { w.db with
            appointments := w.db.appointments ++ [appt],
            nextApptId := w.db.nextApptId + 1 } }
          let (cal_result, w) := send_calendar_event_stub w doc.name (pyStr patient_name)
            start_dt.isoformat end_dt.isoformat
          let (email_result, w) := send_email_stub w (pyStr patient_email)
            ("Appointment with " ++ doc.name) ("Your appointment on " ++ start_dt.isoformat)
          (.ok (.dict [("ok", .bool true), ("appointment_id", .int (appt.id : Int)),
            ("calendar", cal_result), ("email", email_result)]), w)

/-- `_normalize_reason` from `mcp/tools.py`; a truthy whitespace-only reason
reaches `r.split()[0]` on an empty split and raises `IndexError`. -/
def _normalize_reason (reason : String) : Except PyErr String :=
  if reason = "" then .ok "other"
  else
    let r := strTrim (strLower reason)
    if ["fever", "temperature", "hot"].any (fun k => pyIn k r) then .ok "fever"
    else if ["check", "checkup", "routine", "follow-up", "follow up", "consult"].any (fun k => pyIn k r) then .ok "checkup"
    else if ["cough", "cold", "flu", "sore", "throat"].any (fun k => pyIn k r) then .ok "respiratory"
    else if ["pain", "ache", "injury", "back", "headache", "head ache"].any (fun k => pyIn k r) then .ok "pain"
    else if ["prescription", "med", "refill"].any (fun k => pyIn k r) then .ok "prescription"
    else
      match pySplitWs r with
      | [] => .error (.indexErr "list index out of range")
      | t :: _ =>
        let token := String.mk (t.toList.take 20)
        .ok (if token = "" then "other" else token)

/-- The `breakdown[key] = breakdown.get(key, 0) + 1` aggregation step of
`get_doctor_stats`, preserving dict insertion order. -/
def bumpReason (acc : List (String × Nat)) (k : String) : List (String × Nat) :=
  if acc.any (fun p => p.1 == k) then acc.map (fun p => if p.1 == k then (p.1, p.2 + 1) else p)
  else acc ++ [(k, 1)]

/-- The reason column of the doctor's appointments on the given date, in
table order. -/
def reasonRows (db : DB) (doctor_id : Nat) (d : PyDate) : List String :=
  ((db.appointments.filter (fun a => a.doctor_id == doctor_id && a.date == d)).map
    (fun a => a.reason))

/-- The reason-aggregation loop of `get_doctor_stats`. -/
def buildBreakdown (rows : List String) : Except PyErr (List (String × Nat)) :=
  rows.foldlM (fun acc reason => do
    let key ← _normalize_reason reason
    pure (bumpReason acc key)) []

/-- Stable insertion of an entry into a count-descending list, placed after
existing ties (Python `sorted(..., reverse=True)` stability). -/
def insertDescNat (p : String × Nat) : List (String × Nat) → List (String × Nat)
  | [] => [p]
  | q :: rest => if q.2 < p.2 then p :: q :: rest else q :: insertDescNat p rest

/-- `sorted(breakdown.items(), key=lambda x: x[1], reverse=True)`: stable
descending sort by count. -/
def sortDescByCount (l : List (String × Nat)) : List (String × Nat) :=
  l.foldl (fun acc p => insertDescNat p acc) []

/-- The number of the doctor's appointments on a date (the `count_on` helper
of `get_doctor_stats`). -/
def count_on (db : DB) (doctor_id : Nat) (target_date : PyDate) : Nat :=
  (db.appointments.filter (fun a => a.doctor_id == doctor_id && a.date == target_date)).length

/-- `get_doctor_stats` from `mcp/tools.py` (read-only on the store; the
reference date defaults to the orchestrator's current date). -/
def get_doctor_stats (db : DB) (today : PyDate) (doctor_name ref_date_str : PyVal) : Except PyErr PyVal := do
  match ← _get_doctor_by_name db doctor_name with
  | Option.none =>
    pure (PyVal.dict [("ok", .bool false),
      ("error", .str ("Doctor \x27" ++ pyStr doctor_name ++ "\x27 not found"))])
  | some doc => do
    let ref_date ← if truthy ref_date_str then
        (fromisoformat ref_date_str).map (fun dt => dt.date)
      else pure today
    let yesterday := predDate ref_date
    let tomorrow := succDate ref_date
    let breakdown ← buildBreakdown (reasonRows db doc.id ref_date)
    let top_reasons := sortDescByCount breakdown
    pure (PyVal.dict [("ok", .bool true), ("doctor", .str doc.name),
      ("ref_date", .str ref_date.isoformat),
      ("patients_yesterday", .int (count_on db doc.id yesterday : Int)),
      ("patients_today", .int (count_on db doc.id ref_date : Int)),
      ("patients_tomorrow", .int (count_on db doc.id tomorrow : Int)),
      ("reasons_breakdown", .dict (breakdown.map (fun p => (p.1, PyVal.int (p.2 : Int))))),
      ("top_reasons", .list (top_reasons.map (fun p =>
        PyVal.dict [("reason", .str p.1), ("count", .int (p.2 : Int))])))])

/-- `_send_slack_message` from `mcp/tools.py`: with no configured webhook the
structured failure outcome is returned; with one, the HTTP post is an
external call whose outcome the world supplies (the surrounding `try/except`
already folds failures into that outcome). -/
def _send_slack_message (w : World) (_text : String) : PyVal × World :=
  match w.slackWebhook with
  | Option.none => (.dict [("ok", .bool false), ("error", .str "no_slack_webhook")], w)
  | some _ => (w.slackApiResult, w.push "slack_post")

/-- The summary-lines rendering of `get_doctor_summary_report`, producing the
`summary_text` from the stats dict. -/
def reportSummaryLines (stats : PyVal) : Except PyErr String := do
  let doctor ← pyItemE stats "doctor"
  let ref ← pyItemE stats "ref_date"
  let py ← pyItemE stats "patients_yesterday"
  let pt ← pyItemE stats "patients_today"
  let ptm ← pyItemE stats "patients_tomorrow"
  let top ← pyGetE stats "top_reasons"
  let rlines ← if truthy top then do
      let xs ← pyIterE top
      xs.mapM (fun tr => do
        let r ← pyItemE tr "reason"
        let rt ← pyTitleE r
        let c ← pyItemE tr "count"
        pure ("  • " ++ rt ++ ": " ++ pyStr c))
    else pure ["  • No categorized reasons for this date."]
  let lines := ["Summary report for " ++ pyStr doctor ++ " — " ++ pyStr ref,
    "- Patients yesterday: " ++ pyStr py,
    "- Patients today: " ++ pyStr pt,
    "- Patients tomorrow: " ++ pyStr ptm,
    "- Reason breakdown:"] ++ rlines
  pure (joinNL lines)

/-- `get_doctor_summary_report` from `mcp/tools.py`. -/
def get_doctor_summary_report (w : World) (doctor_name ref_date_str send_notification : PyVal) : Except PyErr PyVal × World :=
  let w := w.push "get_doctor_summary_report"
  match (do
      let stats ← get_doctor_stats w.db w.today doctor_name ref_date_str
      let ok ← pyGetE stats "ok"
      if truthy ok = false then do
        let err ← pyGetE stats "error"
        pure (Sum.inl (PyVal.dict [("ok", PyVal.bool false), ("error", err)]))
      else do
        let summary_text ← reportSummaryLines stats
        pure (Sum.inr (stats, summary_text))
    : Except PyErr (Sum PyVal (PyVal × String))) with
  | .error e => (.error e, w)
  | .ok (Sum.inl errRes) => (.ok errRes, w)
  | .ok (Sum.inr (stats, summary_text)) =>
    let (notification_result, w) :=
      if truthy send_notification then _send_slack_message w summary_text
      else (PyVal.none, w)
    match (do
        let okF ← if truthy notification_result then pyGetE notification_result "ok"
          else pure PyVal.none
        pure (truthy notification_result && truthy okF)
      : Except PyErr Bool) with
    | .error e => (.error e, w)
    | .ok sent =>
      match (do
          let doctor ← pyItemE stats "doctor"
          let ref ← pyItemE stats "ref_date"
          pure (PyVal.dict [("ok", .bool true), ("doctor", doctor), ("ref_date", ref),
            ("summary_text", .str summary_text), ("notification_sent", .bool sent),
            ("notification_result", notification_result), ("raw_stats", stats)])
        : Except PyErr PyVal) with
      | .error e => (.error e, w)
      | .ok res => (.ok res, w)

/-- Python `"\n".join(...)` element check: joining demands string elements. -/
def pyAsStrE (v : PyVal) : Except PyErr String :=
  match v with
  | .str s => .ok s
  | _ => .error (.typeErr "sequence item: expected str instance")

/-- Python dict `.items()`: only dicts have it. -/
def pyDictItemsE (v : PyVal) : Except PyErr (List (String × PyVal)) :=
  match v with
  | .dict kvs => .ok kvs
  | _ => .error (.attrErr "object has no attribute \x27items\x27")

/-- Python unary minus on a sort key: ints (and bools) only. -/
def pyToIntE : PyVal → Except PyErr Int
  | .int n => .ok n
  | .bool b => .ok (if b then 1 else 0)
  | _ => .error (.typeErr "bad operand type for unary -")

/-- Stable insertion of a keyed entry into a key-descending list, placed
after existing ties (Python sorted stability). -/
def insertDescKeyed (p : (String × PyVal) × Int) : List ((String × PyVal) × Int) → List ((String × PyVal) × Int)
  | [] => [p]
  | q :: rest => if q.2 < p.2 then p :: q :: rest else q :: insertDescKeyed p rest

/-- `sorted(rb.items(), key=lambda x: -x[1])`: stable descending sort of dict
items by their (integer) values. -/
def sortDescPyItems (l : List (String × PyVal)) : Except PyErr (List (String × PyVal)) := do
  let keyed ← l.mapM (fun p => do
    let n ← pyToIntE p.2
    pure (p, n))
  pure ((keyed.foldl (fun acc p => insertDescKeyed p acc) []).map (fun p => p.1))

/-- The `role = (token_info or {}).get("role")` read shared by
`call_tool_by_name` and `mock_agent_reply` in `ai.py`; it runs before the
dispatcher's `try` block, so its failure (a truthy non-dict caller context)
would propagate. -/
def roleOfToken (token_info : PyVal) : Except PyErr PyVal :=
  pyGetE (if truthy token_info then token_info else PyVal.dict []) "role"

/-- The `try` region of `call_tool_by_name` in `ai.py`: resolve the tool
name, enforce the role gate for the report tool, and invoke the bound
operation with arguments read from the loose argument dict; an unknown name
yields the structured unknown-tool result. -/
def ctbnTry (w : World) (name : String) (args role : PyVal) : Except PyErr PyVal × World :=
  if name = "get_doctor_availability" then
    match (do
        let dn ← pyGetE args "doctor_name"
        let sd ← pyGetE args "start_date"
        let ed ← pyGetE args "end_date"
        let tod ← pyGetE args "time_of_day"
        pure (dn, sd, ed, tod)
      : Except PyErr (PyVal × PyVal × PyVal × PyVal)) with
    | .error e => (.error e, w)
    | .ok (dn, sd, ed, tod) => get_doctor_availability w dn sd ed tod
  else if name = "create_appointment" then
    match (do
        let dn ← pyGetE args "doctor_name"
        let pn ← pyGetE args "patient_name"
        let pe ← pyGetE args "patient_email"
        let si ← pyGetE args "start_iso"
        let ei ← pyGetE args "end_iso"
        let rs ← pyGetE args "reason"
        pure (dn, pn, pe, si, ei, rs)
      : Except PyErr (PyVal × PyVal × PyVal × PyVal × PyVal × PyVal)) with
    | .error e => (.error e, w)
    | .ok (dn, pn, pe, si, ei, rs) => create_appointment w dn pn pe si ei rs
  else if name = "get_doctor_summary_report" then
    if isStrEq role "doctor" = false then
      (.ok (.dict [("ok", .bool false),
        ("error", .str "forbidden: get_doctor_summary_report is restricted to doctors")]), w)
    else
      match (do
          let dn ← pyGetE args "doctor_name"
          let rd ← pyGetE args "ref_date"
          let sn ← pyGetE args "send_notification" (PyVal.bool true)
          pure (dn, rd, sn)
        : Except PyErr (PyVal × PyVal × PyVal)) with
      | .error e => (.error e, w)
      | .ok (dn, rd, sn) => get_doctor_summary_report w dn rd sn
  else (.ok (.dict [("ok", .bool false),
    ("error", .str ("Unknown tool \x27" ++ name ++ "\x27"))]), w)

/-- `call_tool_by_name` from `ai.py`: read the caller's role, run the guarded
dispatch, and convert any exception raised inside the `try` region into a
structured error result carrying `str(e)`. -/
def call_tool_by_name (w : World) (name : String) (args token_info : PyVal) : Except PyErr (PyVal × World) := do
  let role ← roleOfToken token_info
  let (r, w2) := ctbnTry w name args role
  match r with
  | .ok v => pure (v, w2)
  | .error e => pure (PyVal.dict [("ok", .bool false), ("error", .str e.toText)], w2)

/-- One availability slot line of `summarize_tool_outputs`. -/
def availSlotLine (s : PyVal) : Except PyErr String := do
  let si ← pyItemE s "start_iso"
  let ei ← pyItemE s "end_iso"
  pure (" • " ++ pyStr si ++ " — " ++ pyStr ei)

/-- The raw-stats fallback rendering of the report branch of
`summarize_tool_outputs` (used when the result carries no usable
`summary_text`). -/
def rawStatsLines (res : PyVal) : Except PyErr (List String) := do
  let raw ← pyGetE res "raw_stats" (PyVal.dict [])
  let doc ← pyGetE raw "doctor" (PyVal.str "Doctor")
  let ref ← pyGetE raw "ref_date" (PyVal.str "")
  let y ← pyGetE raw "patients_yesterday" (PyVal.int 0)
  let t ← pyGetE raw "patients_today" (PyVal.int 0)
  let tm ← pyGetE raw "patients_tomorrow" (PyVal.int 0)
  let top0 ← pyGetE raw "top_reasons"
  let top := if truthy top0 then top0 else PyVal.list []
  let parts ← if truthy top then do
      let xs ← pySliceE top 10
      xs.mapM (fun r => do
        let rr ← pyItemE r "reason"
        let rt ← pyTitleE rr
        let c ← pyItemE r "count"
        pure ("• " ++ rt ++ ": " ++ pyStr c))
    else do
      let rb ← pyGetE raw "reasons_breakdown" (PyVal.dict [])
      let items ← pyDictItemsE rb
      let sortedItems ← sortDescPyItems items
      pure ((sortedItems.map (fun p => "• " ++ pyTitle p.1 ++ ": " ++ pyStr p.2)).take 10)
  let notified ← pyGetE res "notification_sent" (PyVal.bool false)
  pure (["Summary report for " ++ pyStr doc ++ " — " ++ pyStr ref, "",
    "- Patients yesterday: " ++ pyStr y, "",
    "- Patients today: " ++ pyStr t, "",
    "- Patients tomorrow: " ++ pyStr tm, "",
    "- Reason breakdown:", ""]
    ++ (if !parts.isEmpty then parts else ["• No categorized reasons available."])
    ++ ["", "Notification sent: " ++ (if truthy notified then "Yes" else "No")])

/-- The lines contributed by one entry of the loop in
`summarize_tool_outputs`. -/
def summarizeEntryLines (entry : PyVal) : Except PyErr (List String) := do
  let tool ← pyGetE entry "tool"
  let res ← pyGetE entry "result" (PyVal.dict [])
  if isStrEq tool "get_doctor_availability" then do
    let slots ← pyGetE res "available_slots" (PyVal.list [])
    if truthy slots = false then pure ["No available slots found."]
    else do
      let first ← pySliceE slots 6
      let slotLines ← first.mapM availSlotLine
      pure ("Available slots:" :: slotLines)
  else if isStrEq tool "create_appointment" then do
    let ok ← pyGetE res "ok"
    if truthy ok then do
      let appt_id ← pyGetE res "appointment_id"
      let cal ← pyGetE res "calendar" (PyVal.dict [])
      let hl ← pyGetE cal "htmlLink"
      let cal_note ← if truthy hl then pure hl else do
        let cal2 ← pyGetE res "calendar" (PyVal.dict [])
        pyGetE cal2 "note" (PyVal.str "")
      pure ["Appointment created (id: " ++ pyStr appt_id ++ "). " ++ pyStr cal_note]
    else do
      let err ← pyGetE res "error"
      pure ["Failed to create appointment: " ++ pyStr err]
  else if isStrEq tool "get_doctor_summary_report" then do
    let ok ← pyGetE res "ok"
    if truthy ok then do
      let summary_text ← pyGetE res "summary_text"
      match summary_text with
      | .str st =>
        if st ≠ "" && strTrim st ≠ "" then do
          let notified ← pyGetE res "notification_sent" (PyVal.bool false)
          pure [st, "", "Notification sent: " ++ (if truthy notified then "Yes" else "No")]
        else rawStatsLines res
      | _ => rawStatsLines res
    else do
      let err ← pyGetE res "error"
      pure ["Stats error: " ++ pyStr err]
  else pure [dumps res]

/-- `summarize_tool_outputs` from `ai.py`: readable text from an ordered list
of tool-call entries, or the fixed `"No results."` when no lines were
produced. -/
def summarize_tool_outputs (tool_outputs : List PyVal) : Except PyErr String := do
  let lines ← tool_outputs.foldlM (fun acc entry => do
      let ls ← summarizeEntryLines entry
      pure (acc ++ ls)) ([] : List String)
  pure (if lines.isEmpty then "No results." else joinNL lines)

/-- After `dr`/`dr.`: at least one whitespace character then an alphabetic
run, returning the captured run (`\s+([a-zA-Z]+)`). -/
def matchSpAlpha (cs : List Char) : Option String :=
  let (sp, rest) := cs.span Char.isWhitespace
  if sp.isEmpty then Option.none
  else
    let (al, _) := rest.span Char.isAlpha
    if al.isEmpty then Option.none else some (String.mk al)

/-- Attempt of the pattern `dr\.?\s+([a-zA-Z]+)` (case-insensitive) at the
head of the text; a dot present after `dr` must be followed by whitespace,
since the backtracked alternative would require `\s+` to match the dot. -/
def matchDrAt (cs : List Char) : Option String :=
  match cs with
  | c0 :: c1 :: rest =>
    if (c0 == 'd' || c0 == 'D') && (c1 == 'r' || c1 == 'R') then
      match rest with
      | '.' :: r2 => matchSpAlpha r2
      | _ => matchSpAlpha rest
    else Option.none
  | _ => Option.none

/-- `re.search(r"dr\.?\s+([a-zA-Z]+)", message, re.IGNORECASE)`: leftmost
match, returning the captured group. -/
def searchDr : List Char → Option String
  | [] => Option.none
  | c :: rest =>
    match matchDrAt (c :: rest) with
    | some t => some t
    | Option.none => searchDr rest

/-- Attempt of the pattern `\d{4}-\d{2}-\d{2}T\d{2}:\d{2}` at the head of the
text, returning the matched token. -/
def matchDtAt (cs : List Char) : Option String :=
  match cs with
  | a :: b :: c :: d :: '-' :: e :: f :: '-' :: g :: h :: 'T' :: i :: j :: ':' :: k :: l :: _ =>
    if [a, b, c, d, e, f, g, h, i, j, k, l].all Char.isDigit then
      some (String.mk [a, b, c, d, '-', e, f, '-', g, h, 'T', i, j, ':', k, l])
    else Option.none
  | _ => Option.none

/-- `re.search(r"(\d{4}-\d{2}-\d{2}T\d{2}:\d{2})", message)`: leftmost match. -/
def searchDt : List Char → Option String
  | [] => Option.none
  | c :: rest =>
    match matchDtAt (c :: rest) with
    | some t => some t
    | Option.none => searchDt rest

/-- Attempt of `for\s+([A-Za-z ]+)` (case-insensitive) at the head of the
text. When only whitespace follows, the greedy `\s+` backtracks one step and
the group can still capture a single trailing space. -/
def matchForAt (cs : List Char) : Option String :=
  match cs with
  | c0 :: c1 :: c2 :: rest =>
    if (c0 == 'f' || c0 == 'F') && (c1 == 'o' || c1 == 'O') && (c2 == 'r' || c2 == 'R') then
      let (sp, r2) := rest.span Char.isWhitespace
      if sp.isEmpty then Option.none
      else
        let (tok, _) := r2.span (fun ch => ch.isAlpha || ch == ' ')
        if !tok.isEmpty then some (String.mk tok)
        else if 2 ≤ sp.length && (sp.drop 1).contains ' ' then some " "
        else Option.none
    else Option.none
  | _ => Option.none

/-- `re.search(r"for\s+([A-Za-z ]+)", message, re.IGNORECASE)`: leftmost
match, returning the captured group. -/
def searchFor : List Char → Option String
  | [] => Option.none
  | c :: rest =>
    match matchForAt (c :: rest) with
    | some t => some t
    | Option.none => searchFor rest

/-- The reply/tool-trace pair produced by an agent turn
(`{"reply": ..., "tool_calls": [...]}`). -/
structure AgentOut where
  reply : String
  tool_calls : List PyVal

/-- The raw-stats fallback reply of the doctor-role stats branch of
`mock_agent_reply` (differs from the summarizer fallback in its defaults for
the doctor and reference date). -/
def mockRawStatsReply (res : PyVal) (doctor_name : String) (ref_date : PyVal) : Except PyErr String := do
  let raw ← pyGetE res "raw_stats" (PyVal.dict [])
  let doc ← pyGetE raw "doctor" (PyVal.str doctor_name)
  let ref ← pyGetE raw "ref_date" (if truthy ref_date then ref_date else PyVal.str "")
  let y ← pyGetE raw "patients_yesterday" (PyVal.int 0)
  let t ← pyGetE raw "patients_today" (PyVal.int 0)
  let tm ← pyGetE raw "patients_tomorrow" (PyVal.int 0)
  let top0 ← pyGetE raw "top_reasons"
  let top := if truthy top0 then top0 else PyVal.list []
  let parts ← if truthy top then do
      let xs ← pySliceE top 10
      xs.mapM (fun r => do
        let rr ← pyItemE r "reason"
        let rt ← pyTitleE rr
        let c ← pyItemE r "count"
        pure ("• " ++ rt ++ ": " ++ pyStr c))
    else do
      let rb ← pyGetE raw "reasons_breakdown" (PyVal.dict [])
      let items ← pyDictItemsE rb
      let sortedItems ← sortDescPyItems items
      pure ((sortedItems.map (fun p => "• " ++ pyTitle p.1 ++ ": " ++ pyStr p.2)).take 10)
  let notified ← pyGetE res "notification_sent" (PyVal.bool false)
  let lines := ["Summary report for " ++ pyStr doc ++ " — " ++ pyStr ref, "",
    "- Patients yesterday: " ++ pyStr y, "",
    "- Patients today: " ++ pyStr t, "",
    "- Patients tomorrow: " ++ pyStr tm, "",
    "- Reason breakdown:", ""]
    ++ (if !parts.isEmpty then parts else ["• No categorized reasons available."])
    ++ ["", "Notification sent: " ++ (if truthy notified then "Yes" else "No")]
  pure (joinNL lines)

/-- `mock_agent_reply` from `ai.py`: the deterministic fallback agent.
Classifies the lowercased message into availability / stats / booking /
unrecognized, extracts the doctor name and dates heuristically, performs its
own tool dispatches, and assembles the reply text. The stats branch
short-circuits to a refusal for non-doctor callers without dispatching. -/
def mock_agent_reply (w : World) (message : String) (token_info : PyVal) : Except PyErr (AgentOut × World) := do
  let msg := strLower message
  let role ← roleOfToken token_info
  let doctor_name := match searchDr message.toList with
    | Option.none => "Dr. Ahuja"
    | some tok => "Dr. " ++ pyTitle tok
  let today := w.today
  let start_date := if pyIn "tomorrow" msg then (succDate today).isoformat
    else if pyIn "yesterday" msg then (predDate today).isoformat
    else today.isoformat
  if pyIn "availability" msg || pyIn "available" msg || pyIn "slots" msg then do
    let args := PyVal.dict [("doctor_name", .str doctor_name), ("start_date", .str start_date)]
    let (res, w) ← call_tool_by_name w "get_doctor_availability" args PyVal.none
    let tc := PyVal.dict [("tool", .str "get_doctor_availability"), ("args", args), ("result", res)]
    let okv ← pyGetE res "ok"
    if truthy okv then do
      let slots ← pyGetE res "available_slots" (PyVal.list [])
      if truthy slots = false then
        pure ({ reply := "No slots available for " ++ doctor_name ++ " on " ++ start_date ++ ".",
                tool_calls := [tc] }, w)
      else do
        let first ← pySliceE slots 5
        let lines ← first.mapM (fun s => do
          let si ← pyItemE s "start_iso"
          let ei ← pyItemE s "end_iso"
          pure ("- " ++ pyStr si ++ " to " ++ pyStr ei))
        pure ({ reply := "Available slots for " ++ doctor_name ++ " on " ++ start_date ++ ":\n"
                  ++ joinNL lines,
                tool_calls := [tc] }, w)
    else do
      let err ← pyGetE res "error"
      pure ({ reply := "Error: " ++ pyStr err, tool_calls := [tc] }, w)
  else if pyIn "how many" msg || pyIn "patients" msg || pyIn "visited" msg then do
    let ref_date : PyVal :=
      if pyIn "yesterday" msg then .str (predDate today).isoformat
      else if pyIn "tomorrow" msg then .str (succDate today).isoformat
      else if pyIn "today" msg then .str today.isoformat
      else PyVal.none
    if isStrEq role "doctor" = false then
      pure ({ reply := "Only doctors can view detailed appointment reports. Please contact your doctor for this information.",
              tool_calls := [] }, w)
    else do
      let args := PyVal.dict [("doctor_name", .str doctor_name), ("ref_date", ref_date),
        ("send_notification", .bool true)]
      let (res, w) ← call_tool_by_name w "get_doctor_summary_report" args token_info
      let tc := PyVal.dict [("tool", .str "get_doctor_summary_report"), ("args", args), ("result", res)]
      let okv ← pyGetE res "ok"
      if truthy okv then do
        let summary ← pyGetE res "summary_text"
        match summary with
        | .str st =>
          if st ≠ "" && strTrim st ≠ "" then do
            let notified ← pyGetE res "notification_sent" (PyVal.bool false)
            pure ({ reply := st ++ "\n\nNotification sent: " ++ (if truthy notified then "Yes" else "No"),
                    tool_calls := [tc] }, w)
          else do
            let reply ← mockRawStatsReply res doctor_name ref_date
            pure ({ reply := reply, tool_calls := [tc] }, w)
        | _ => do
          let reply ← mockRawStatsReply res doctor_name ref_date
          pure ({ reply := reply, tool_calls := [tc] }, w)
      else do
        let err ← pyGetE res "error"
        pure ({ reply := "Error: " ++ pyStr err, tool_calls := [tc] }, w)
  else if pyIn "book" msg || pyIn "schedule" msg then do
    let dt_match := searchDt message.toList
    let name_match := searchDr message.toList
    let patient_match := searchFor message.toList
    let doctor_name := match name_match with
      | Option.none => "Dr. Ahuja"
      | some tok => "Dr. " ++ pyTitle tok
    let patient_name := match patient_match with
      | Option.none => "Patient"
      | some tok => pyTitle (strTrim tok)
    match dt_match with
    | some dts => do
      let start_iso := dts ++ ":00"
      let sd ← fromisoformat (.str start_iso)
      let end_iso := (addHour sd).isoformat
      let patient_email := "patient@example.com"
      let args := PyVal.dict [("doctor_name", .str doctor_name), ("patient_name", .str patient_name),
        ("patient_email", .str patient_email), ("start_iso", .str start_iso),
        ("end_iso", .str end_iso), ("reason", .str "Booked via mock agent")]
      let (res, w) ← call_tool_by_name w "create_appointment" args PyVal.none
      let tc := PyVal.dict [("tool", .str "create_appointment"),
        ("args", PyVal.dict [("doctor_name", .str doctor_name), ("start_iso", .str start_iso)]),
        ("result", res)]
      let okv ← pyGetE res "ok"
      if truthy okv then do
        let aid ← pyGetE res "appointment_id"
        pure ({ reply := "Booked " ++ doctor_name ++ " at " ++ start_iso ++ " for " ++ patient_name
                  ++ ". Appointment id: " ++ pyStr aid,
                tool_calls := [tc] }, w)
      else do
        let err ← pyGetE res "error"
        pure ({ reply := "Booking failed: " ++ pyStr err, tool_calls := [tc] }, w)
    | Option.none => do
      let args := PyVal.dict [("doctor_name", .str doctor_name), ("start_date", .str today.isoformat)]
      let (res, w) ← call_tool_by_name w "get_doctor_availability" args PyVal.none
      let tc := PyVal.dict [("tool", .str "get_doctor_availability"), ("args", args), ("result", res)]
      let okv ← pyGetE res "ok"
      if truthy okv then do
        let slots0 ← pyGetE res "available_slots" (PyVal.list [])
        let slots ← pySliceE slots0 5
        if !slots.isEmpty then do
          let opts ← slots.mapM (fun s => do
            let si ← pyItemE s "start_iso"
            pyAsStrE si)
          pure ({ reply := "I don\x27t see a datetime in your request. Here are the next available slots for "
                    ++ doctor_name ++ ":\n" ++ joinNL opts
                    ++ "\nPlease say \x27Book <ISO-datetime>\x27 to confirm.",
                  tool_calls := [tc] }, w)
        else pure ({ reply := "No available slots found to book.", tool_calls := [tc] }, w)
      else do
        let err ← pyGetE res "error"
        pure ({ reply := "Error: " ++ pyStr err, tool_calls := [tc] }, w)
  else
    pure ({ reply := "I didn\x27t understand. Try: \x27check Dr. Ahuja availability\x27, \x27book 2025-12-02T09:00 for John\x27, or \x27how many patients yesterday\x27.",
            tool_calls := [] }, w)

/-- `build_tools_schema` from `ai.py`: the declarative tool registry
advertised to the model. -/
def build_tools_schema : PyVal :=
  .list [
    .dict [("type", .str "function"),
      ("function", .dict [
        ("name", .str "get_doctor_availability"),
        ("description", .str "Return available slots for a doctor."),
        ("parameters", .dict [
          ("type", .str "object"),
          ("properties", .dict [
            ("doctor_name", .dict [("type", .str "string")]),
            ("start_date", .dict [("type", .str "string")]),
            ("end_date", .dict [("type", .str "string")]),
            ("time_of_day", .dict [("type", .str "string")])]),
          ("required", .list [.str "doctor_name", .str "start_date"])])])],
    .dict [("type", .str "function"),
      ("function", .dict [
        ("name", .str "create_appointment"),
        ("description", .str "Book an appointment."),
        ("parameters", .dict [
          ("type", .str "object"),
          ("properties", .dict [
            ("doctor_name", .dict [("type", .str "string")]),
            ("patient_name", .dict [("type", .str "string")]),
            ("patient_email", .dict [("type", .str "string")]),
            ("start_iso", .dict [("type", .str "string")]),
            ("end_iso", .dict [("type", .str "string")]),
            ("reason", .dict [("type", .str "string")])]),
          ("required", .list [.str "doctor_name", .str "patient_name", .str "patient_email",
            .str "start_iso", .str "end_iso"])])])],
    .dict [("type", .str "function"),
      ("function", .dict [
        ("name", .str "get_doctor_summary_report"),
        ("description", .str "Return a summary report of patient counts and reasons, and optionally notify the doctor through Slack."),
        ("parameters", .dict [
          ("type", .str "object"),
          ("properties", .dict [
            ("doctor_name", .dict [("type", .str "string"),
              ("description", .str "Doctor full name, e.g. \x27Dr. Ahuja\x27.")]),
            ("ref_date", .dict [("type", .str "string"),
              ("description", .str "Reference date in YYYY-MM-DD format (optional). If omitted, defaults to today.")]),
            ("send_notification", .dict [("type", .str "boolean"),
              ("description", .str "If true, send the summary to the doctor\x27s Slack webhook (if configured).")])]),
          ("required", .list [.str "doctor_name"])])])]]

/-- The system policy text assembled in `openai_agent_reply`. -/
def system_prompt : String :=
  "You are an AI assistant for a medical appointment scheduling system. "
  ++ "Your job is to help users check doctor availability, create appointments, "
  ++ "and retrieve system statistics using tool calls. You must follow strict rules "
  ++ "to ensure accuracy and safe operation.\n\n"
  ++ "AVAILABLE DOCTORS:\n"
  ++ "- Dr. Ahuja\n"
  ++ "- Dr. Mehta\n"
  ++ "- Dr. Sharma\n"
  ++ "- Dr. Roy\n"
  ++ "- Dr. Joy\n"
  ++ "- Dr. Joshi\n\n"
  ++ "CORE RULES:\n"
  ++ "1. Never guess or invent doctor names.\n"
  ++ "2. Only use EXACT doctor names from the provided list.\n"
  ++ "3. If the user does not mention a doctor name, ask: \x27Which doctor would you like?\x27\n"
  ++ "4. If the user mentions a doctor not in the list, reply: "
  ++ "\x27I don’t recognize that doctor. Available doctors are: Dr. Ahuja, Dr. Mehta, "
  ++ "Dr. Sharma, Dr. Roy, Dr. Joy, Dr. Joshi.\x27\n"
  ++ "5. Do NOT assume a default doctor.\n"
  ++ "6. Do NOT choose a doctor unless explicitly told by the user.\n"
  ++ "7. All date/time values in tool calls MUST be ISO-8601 format (YYYY-MM-DDTHH:MM:SS).\n"
  ++ "8. You may call tools ONLY through the tool_calls API.\n"
  ++ "9. If a tool is required, always call it BEFORE giving a final answer.\n"
  ++ "10. After receiving tool output, ALWAYS generate a short, friendly, human-readable summary.\n"
  ++ "11. Never reveal internal JSON, tool arguments, call IDs, or raw system messages.\n"
  ++ "12. If information is missing (doctor, date, time), ask follow-up questions before making a tool call.\n"
  ++ "13. If the user asks for system stats, call the stats tool.\n"
  ++ "14. If a tool error occurs, explain it in simple language.\n"
  ++ "15. Keep responses concise, helpful, and on-topic.\n"
  ++ "16. Redirect politely if the user asks for non-medical/irrelevant queries.\n\n"
  ++ "TOOL USAGE LOGIC:\n"
  ++ "- Ask for missing details BEFORE calling tools.\n"
  ++ "- For checking doctor availability → call the availability tool.\n"
  ++ "- For creating appointments → call the appointment creation tool ONLY when "
  ++ "all required details are known.\n"
  ++ "- For system analytics → call the stats tool.\n\n"
  ++ "CONVERSATION RULES:\n"
  ++ "• Maintain context from earlier messages.\n"
  ++ "• If the user changes doctor or datetime, reconfirm before booking.\n"
  ++ "• Never contradict previous context unless the user corrects it.\n\n"
  ++ "OUTPUT RULES:\n"
  ++ "- User-facing messages must be natural and human.\n"
  ++ "- Tool calls MUST match the exact schema.\n"
  ++ "- Never fabricate tool responses.\n"
  ++ "- The final message after tool execution should be a clean summary.\n"

/-- One tool invocation requested by the model. The raw JSON argument payload
is decoded at the collaborator boundary: `.ok v` models a payload that
`json.loads` accepts, `.error` one it rejects (which the code degrades to an
empty argument dict). -/
structure ModelToolCall where
  id : String
  name : String
  arguments : Except String PyVal

/-- The message object of one model response: direct content and/or a list
of requested tool invocations. -/
structure ModelMsg where
  content : Option String
  tool_calls : List ModelToolCall

/-- The tool-name read of the schema filter
`t.get("function", {}).get("name")`; the schema constant contains only
dicts, on which the chained `.get` is total. -/
def schemaToolName (t : PyVal) : PyVal :=
  match t with
  | .dict kvs =>
    match pyLookupD kvs "function" (PyVal.dict []) with
    | .dict f => pyLookupD f "name" PyVal.none
    | _ => PyVal.none
  | _ => PyVal.none

/-- The role filtering of the advertised tool schemas in `openai_agent_reply`:
a non-doctor caller is never offered the summary-report tool. -/
def filterToolsForRole (tools : PyVal) : PyVal :=
  match tools with
  | .list ts => .list (ts.filter (fun t => !(isStrEq (schemaToolName t) "get_doctor_summary_report")))
  | _ => tools

/-- `openai_agent_reply` from `ai.py` (entered only when the client is
initialized). The two chat-completion calls are oracle parameters returning
either the model message or the raised exception text. A first-call failure
returns the hard-coded degraded reply; requested tools are dispatched in
order through `call_tool_by_name`; an unusable second reply is replaced by
the deterministic summarizer. -/
def openai_agent_reply (w : World)
    (oracle1 : List PyVal → PyVal → Except String ModelMsg)
    (oracle2 : List PyVal → Except String ModelMsg)
    (session_id user_message : String) (token_info : PyVal) : Except PyErr (AgentOut × World) := do
  let history := get_session_history w session_id
  let messages := [PyVal.dict [("role", .str "system"), ("content", .str system_prompt)]]
  let messages ← (do
    if truthy token_info then do
      let r ← pyGetE token_info "role"
      if isStrEq r "doctor" then do
        let dn ← pyGetE token_info "doctor_name"
        if truthy dn then do
          let dn2 ← pyItemE token_info "doctor_name"
          pure (messages ++ [PyVal.dict [("role", .str "system"),
            ("content", .str ("You are acting on behalf of " ++ pyStr dn2
              ++ ". Use this identity when appropriate."))]])
        else pure messages
      else pure messages
    else pure messages
    : Except PyErr (List PyVal))
  let histMsgs := (history.filter (fun t => t.role == "user" || t.role == "assistant")).map
    (fun t => PyVal.dict [("role", .str t.role), ("content", .str t.content)])
  let messages := messages ++ histMsgs
    ++ [PyVal.dict [("role", .str "user"), ("content", .str user_message)]]
  let tools := build_tools_schema
  let role ← roleOfToken token_info
  let tools := if isStrEq role "doctor" = false then filterToolsForRole tools else tools
  match oracle1 messages tools with
  | .error e =>
    pure ({ reply := "OpenAI error: " ++ e ++ " (falling back to mock)", tool_calls := [] }, w)
  | .ok message =>
    if !message.tool_calls.isEmpty then do
      let (tool_outputs, messages, w) ← message.tool_calls.foldlM
        (fun (acc : List PyVal × List PyVal × World) call => do
          let (touts, msgs, w) := acc
          let args := match call.arguments with
            | .ok v => v
            | .error _ => PyVal.dict []
          let (result, w) ← call_tool_by_name w call.name args token_info
          pure (touts ++ [PyVal.dict [("tool", .str call.name), ("args", args), ("result", result)]],
                msgs ++ [PyVal.dict [("role", .str "tool"), ("tool_call_id", .str call.id),
                  ("content", .str (dumps result))]],
                w))
        ([], messages, w)
      let finalText? : Option String := match oracle2 messages with
        | .ok fm => match fm.content with
          | some c => if c ≠ "" then some c else Option.none
          | Option.none => Option.none
        | .error _ => Option.none
      let final_text ← (match finalText? with
        | Option.none => summarize_tool_outputs tool_outputs
        | some ft =>
          if strTrim ft = "" || strStartsWith (strLower (strTrim ft)) "tool result" then
            summarize_tool_outputs tool_outputs
          else pure ft
        : Except PyErr String)
      let w := append_session w session_id "assistant" final_text
      pure ({ reply := final_text, tool_calls := tool_outputs }, w)
    else do
      let assistant_text := match message.content with
        | some c => c
        | Option.none => ""
      let w := append_session w session_id "assistant" assistant_text
      pure ({ reply := assistant_text, tool_calls := [] }, w)

/-- `process_user_message` from `ai.py`: the Dialogue Driver. Creates the
session when the identifier is absent (or falsy), appends the user turn,
runs the model path or the deterministic fallback according to the
configuration flag, appends the assistant turn, and returns the caller-facing
reply structure. No exception handling occurs here: anything the selected
agent raises propagates. -/
def process_user_message (w : World) (use_openai : Bool)
    (oracle1 : List PyVal → PyVal → Except String ModelMsg)
    (oracle2 : List PyVal → Except String ModelMsg)
    (session_id : Option String) (message : String) (token_info : PyVal) : Except PyErr (PyVal × World) := do
  let (sid, w) := match session_id with
    | Option.none => create_session w
    | some s => if s = "" then create_session w else (s, w)
  let w := append_session w sid "user" message
  let (out, w, mode) ← (do
    if use_openai then do
      let (out, w) ← openai_agent_reply w oracle1 oracle2 sid message token_info
      pure (out, w, "openai")
    else do
      let (out, w) ← mock_agent_reply w message token_info
      pure (out, w, "mock")
    : Except PyErr (AgentOut × World × String))
  let w := append_session w sid "assistant" out.reply
  pure (PyVal.dict [("ok", .bool true), ("session_id", .str sid), ("reply", .str out.reply),
    ("tool_calls", .list out.tool_calls), ("mode", .str mode)], w)

/-! ### Sample state, claim-driver definitions, and basic lemmas -/

/-- A caller context matching the declared type `Optional[dict]` of
`token_info`. -/
def none_or_dict : PyVal → Bool
  | .none => true
  | .dict _ => true
  | _ => false

/-- A sample scheduling store: two seeded doctors, no appointments yet. -/
def sampleDB : DB :=
  { doctors := [⟨1, "Dr. Ahuja"⟩, ⟨2, "Dr. Mehta"⟩], appointments := [], nextApptId := 1 }

/-- A sample world: empty session store, sample scheduling store, a fixed
current date, and no configured notification collaborators. -/
def sampleWorld : World :=
  { sessions := [], db := sampleDB, today := ⟨2025, 12, 1⟩, nowTs := 1700000000,
    freshSid := "sid-1", googleCreds := false, slackWebhook := Option.none,
    calendarApiResult := PyVal.none, emailApiResult := PyVal.none,
    slackApiResult := PyVal.none, trace := [] }

theorem except_bind_ok {ε α β : Type} (a : α) (f : α → Except ε β) :
    (Except.ok a : Except ε α) >>= f = f a := rfl

theorem except_bind_error {ε α β : Type} (e : ε) (f : α → Except ε β) :
    (Except.error e : Except ε α) >>= f = Except.error e := rfl

theorem except_pure_eq {ε α : Type} (a : α) : (pure a : Except ε α) = Except.ok a := rfl

theorem except_map_ok {ε α β : Type} (f : α → β) (a : α) :
    (f <$> (Except.ok a : Except ε α)) = Except.ok (f a) := rfl

theorem except_map_error {ε α β : Type} (f : α → β) (e : ε) :
    (f <$> (Except.error e : Except ε α)) = Except.error e := rfl

theorem roleOfToken_ok (tok : PyVal) (h : none_or_dict tok = true) :
    ∃ r, roleOfToken tok = .ok r := by
  cases tok with
  | none => exact ⟨PyVal.none, rfl⟩
  | dict kvs => cases kvs with
    | nil => exact ⟨PyVal.none, rfl⟩
    | cons p t => exact ⟨_, rfl⟩
  | bool b => simp [none_or_dict] at h
  | int n => simp [none_or_dict] at h
  | str s => simp [none_or_dict] at h
  | list xs => simp [none_or_dict] at h

/-- C3: dispatching any tool name outside the registry, with any argument
mapping and any caller context of the declared `Optional[dict]` type, returns
the structured unknown-tool error result (success flag false) without raising
and without touching the world. -/
theorem unknown_tool_dispatch_is_structured (w : World) (name : String) (args tok : PyVal)
    (hctx : none_or_dict tok = true)
    (h1 : name ≠ "get_doctor_availability")
    (h2 : name ≠ "create_appointment")
    (h3 : name ≠ "get_doctor_summary_report") :
    call_tool_by_name w name args tok =
      .ok (.dict [("ok", .bool false), ("error", .str ("Unknown tool \x27" ++ name ++ "\x27"))], w) := by
  obtain ⟨r, hr⟩ := roleOfToken_ok tok hctx
  simp [call_tool_by_name, hr, ctbnTry, h1, h2, h3]

theorem unknown_tool_dispatch_is_structured_witness :
    call_tool_by_name sampleWorld "frobnicate" (.dict []) PyVal.none =
      .ok (.dict [("ok", .bool false), ("error", .str ("Unknown tool \x27" ++ "frobnicate" ++ "\x27"))], sampleWorld) :=
  unknown_tool_dispatch_is_structured sampleWorld "frobnicate" (.dict []) PyVal.none
    (by decide) (by decide) (by decide) (by decide)

theorem slack_message_trace (w : World) (t : String) :
    ∃ tail, (_send_slack_message w t).2.trace = tail ++ w.trace := by
  unfold _send_slack_message
  cases h : w.slackWebhook with
  | none => exact ⟨[], rfl⟩
  | some u => exact ⟨["slack_post"], rfl⟩

theorem report_always_records_invocation (w : World) (dn rd sn : PyVal) :
    ∃ tail, (get_doctor_summary_report w dn rd sn).2.trace
      = tail ++ "get_doctor_summary_report" :: w.trace := by
  simp only [get_doctor_summary_report]
  split
  · exact ⟨[], rfl⟩
  · exact ⟨[], rfl⟩
  · rename_i stats st heq
    cases hsn : truthy sn with
    | true =>
      simp only [hsn, if_true]
      obtain ⟨tl, htl⟩ := slack_message_trace (w.push "get_doctor_summary_report") st
      rcases hsl : _send_slack_message (w.push "get_doctor_summary_report") st with ⟨nr, wn⟩
      rw [hsl] at htl
      refine ⟨tl, ?_⟩
      split
      · exact htl
      · split
        · exact htl
        · exact htl
    | false =>
      simp only [hsn, Bool.false_eq_true, if_false]
      refine ⟨[], ?_⟩
      split
      · rfl
      · split
        · rfl
        · rfl

/-- C2: a caller whose role is not `doctor` dispatching the role-gated
`get_doctor_summary_report` through `call_tool_by_name` receives the
structured Forbidden result with the world (including the invocation trace)
unchanged, so the underlying operation — which always records its invocation
in the trace, as the second conjunct shows — was never invoked; a caller
whose role is exactly `doctor` passes the gate and the underlying operation
runs (its invocation appears on the trace). -/
theorem report_tool_role_gate :
    (∀ (w : World) (args tok r : PyVal), roleOfToken tok = .ok r →
      isStrEq r "doctor" = false →
      call_tool_by_name w "get_doctor_summary_report" args tok =
        .ok (.dict [("ok", .bool false),
          ("error", .str "forbidden: get_doctor_summary_report is restricted to doctors")], w))
    ∧ (∀ (w : World) (kvs : List (String × PyVal)) (tok r : PyVal),
        roleOfToken tok = .ok r → isStrEq r "doctor" = true →
        ∃ p, call_tool_by_name w "get_doctor_summary_report" (.dict kvs) tok = .ok p ∧
          ∃ tail, p.2.trace = tail ++ "get_doctor_summary_report" :: w.trace) := by
  constructor
  · intro w args tok r hr hrole
    simp only [call_tool_by_name, hr, ctbnTry, hrole, except_bind_ok]
    rfl
  · intro w kvs tok r hr hrole
    rcases hrep : get_doctor_summary_report w (pyLookupD kvs "doctor_name" PyVal.none)
        (pyLookupD kvs "ref_date" PyVal.none) (pyLookupD kvs "send_notification" (PyVal.bool true))
      with ⟨res, w2⟩
    obtain ⟨tl, htl⟩ := report_always_records_invocation w
      (pyLookupD kvs "doctor_name" PyVal.none) (pyLookupD kvs "ref_date" PyVal.none)
      (pyLookupD kvs "send_notification" (PyVal.bool true))
    rw [hrep] at htl
    cases res with
    | ok v =>
      refine ⟨(v, w2), ?_, tl, htl⟩
      simp [call_tool_by_name, hr, ctbnTry, hrole, pyGetE, except_bind_ok, hrep]
      rfl
    | error e =>
      refine ⟨(.dict [("ok", .bool false), ("error", .str e.toText)], w2), ?_, tl, htl⟩
      simp [call_tool_by_name, hr, ctbnTry, hrole, pyGetE, except_bind_ok, hrep]
      rfl

theorem report_tool_role_gate_witness :
    (call_tool_by_name sampleWorld "get_doctor_summary_report" (.dict [])
        (.dict [("role", .str "patient")]) =
      .ok (.dict [("ok", .bool false),
        ("error", .str "forbidden: get_doctor_summary_report is restricted to doctors")], sampleWorld))
    ∧ (∃ p, call_tool_by_name sampleWorld "get_doctor_summary_report"
          (.dict [("doctor_name", .str "Dr. Ahuja")]) (.dict [("role", .str "doctor")]) = .ok p ∧
        ∃ tail, p.2.trace = tail ++ "get_doctor_summary_report" :: sampleWorld.trace) :=
  ⟨report_tool_role_gate.1 sampleWorld (.dict []) (.dict [("role", .str "patient")])
      (.str "patient") rfl (by decide),
   report_tool_role_gate.2 sampleWorld [("doctor_name", .str "Dr. Ahuja")]
      (.dict [("role", .str "doctor")]) (.str "doctor") rfl (by decide)⟩

/-! ### C4: bounded session window -/

/-- The suffix of the most recent `n` elements (all of them when fewer). -/
def lastN (n : Nat) (l : List α) : List α := l.drop (l.length - n)

/-- Driving a sequence of `append_session` calls against one session, as the
claim quantifies over M appends. -/
def append_all (w : World) (session_id : String) (items : List (String × String)) : World :=
  items.foldl (fun acc p => append_session acc session_id p.1 p.2) w

theorem lastN_of_le {l : List α} (h : l.length ≤ n) : lastN n l = l := by
  unfold lastN
  rw [Nat.sub_eq_zero_of_le h, List.drop_zero]

theorem hasKey_false_lookup (s : List (String × List Turn)) (k : String)
    (h : hasKey s k = false) : sessGet s k = [] := by
  unfold sessGet
  cases hf : s.find? (fun p => p.1 == k) with
  | none => rfl
  | some p =>
    exfalso
    have hp := List.find?_some hf
    have hm := List.mem_of_find?_eq_some hf
    unfold hasKey at h
    rw [List.any_eq_false] at h
    exact absurd hp (by simpa using h p hm)

theorem sessGet_map_update (s : List (String × List Turn)) (k : String) (v : List Turn)
    (h : hasKey s k = true) :
    sessGet (s.map (fun p => if p.1 == k then (p.1, v) else p)) k = v := by
  induction s with
  | nil => simp [hasKey] at h
  | cons p t ih =>
    by_cases hp : p.1 = k
    · simp [sessGet, hp]
    · have hp2 : (p.1 == k) = false := by simpa using hp
      have ht : hasKey t k = true := by
        unfold hasKey at h ⊢
        simpa [hp2] using h
      show sessGet (List.map (fun p => if p.1 == k then (p.1, v) else p) (p :: t)) k = v
      rw [List.map_cons]
      simp only [hp2, Bool.false_eq_true, if_false]
      unfold sessGet
      rw [List.find?_cons_of_neg _ (by simp [hp2])]
      exact ih ht

theorem sessGet_append_new (s : List (String × List Turn)) (k : String) (v : List Turn)
    (h : hasKey s k = false) :
    sessGet (s ++ [(k, v)]) k = v := by
  induction s with
  | nil => simp [sessGet]
  | cons p t ih =>
    unfold hasKey at h
    rw [List.any_cons] at h
    have hp : (p.1 == k) = false := by
      cases hpk : (p.1 == k) <;> simp [hpk] at h ⊢
    have ht : hasKey t k = false := by
      unfold hasKey
      cases hT : t.any (fun q => q.1 == k) <;> simp [hp, hT] at h ⊢
    simpa [sessGet, hp] using ih ht

theorem sessGet_sessSet_self (s : List (String × List Turn)) (k : String) (v : List Turn) :
    sessGet (sessSet s k v) k = v := by
  unfold sessSet
  cases h : hasKey s k with
  | true => simpa [h] using sessGet_map_update s k v h
  | false => simpa [h] using sessGet_append_new s k v h

theorem capped_eq_lastN (l : List Turn) :
    (if SESSION_MAX_LEN < l.length then l.drop (l.length - SESSION_MAX_LEN) else l)
      = lastN SESSION_MAX_LEN l := by
  unfold lastN
  split
  · rfl
  · rename_i h
    rw [Nat.sub_eq_zero_of_le (Nat.le_of_not_lt h), List.drop_zero]

theorem append_session_stored (w : World) (sid r c : String) :
    sessGet (append_session w sid r c).sessions sid
      = lastN SESSION_MAX_LEN (sessGet w.sessions sid ++ [⟨r, c, w.nowTs⟩]) := by
  unfold append_session
  cases h : hasKey w.sessions sid with
  | true =>
    simp only [h, if_true]
    rw [sessGet_sessSet_self]
    exact capped_eq_lastN _
  | false =>
    simp only [h, Bool.false_eq_true, if_false]
    rw [sessGet_sessSet_self, sessGet_sessSet_self, hasKey_false_lookup w.sessions sid h]
    exact capped_eq_lastN _

theorem append_session_nowTs (w : World) (sid r c : String) :
    (append_session w sid r c).nowTs = w.nowTs := rfl

theorem append_all_nowTs (sid : String) (items : List (String × String)) :
    ∀ w : World, (append_all w sid items).nowTs = w.nowTs := by
  induction items with
  | nil => intro w; rfl
  | cons p t ih =>
    intro w
    show (append_all (append_session w sid p.1 p.2) sid t).nowTs = w.nowTs
    rw [ih (append_session w sid p.1 p.2)]
    rfl

theorem append_all_append_one (w : World) (sid : String) (l : List (String × String))
    (x : String × String) :
    append_all w sid (l ++ [x]) = append_session (append_all w sid l) sid x.1 x.2 := by
  simp [append_all, List.foldl_append]

theorem lastN_lastN_append_one (n : Nat) (hn : 0 < n) (l : List Turn) (a : Turn) :
    lastN n (lastN n l ++ [a]) = lastN n (l ++ [a]) := by
  by_cases h : l.length ≤ n
  · rw [lastN_of_le h]
  · push_neg at h
    unfold lastN
    have hlen : (l.drop (l.length - n)).length = n := by
      rw [List.length_drop]; omega
    rw [List.length_append, List.length_append, hlen, List.length_singleton]
    rw [List.drop_append_of_le_length (by omega), List.drop_append_of_le_length (by omega),
      List.drop_drop]
    congr 2
    omega

theorem append_all_stored (w : World) (sid : String) (items : List (String × String))
    (h0 : sessGet w.sessions sid = []) :
    sessGet (append_all w sid items).sessions sid
      = lastN SESSION_MAX_LEN (items.map (fun p => (⟨p.1, p.2, w.nowTs⟩ : Turn))) := by
  induction items using List.reverseRecOn with
  | nil => simpa [append_all, lastN] using h0
  | append_singleton l x ih =>
    rw [append_all_append_one, append_session_stored, ih, append_all_nowTs,
      List.map_append, List.map_singleton]
    exact lastN_lastN_append_one SESSION_MAX_LEN (by decide) _ _

/-- C4: starting from a session with no stored turns, after appending any
sequence of M turns the stored turn list is exactly the suffix of the most
recent `min M 20` appended turns in their original append order
(`drop (M - 20)` of the appended sequence: oldest evicted first), and its
length is `min M 20`; since the statement holds for every sequence, it holds
after every single append, so the `SESSION_MAX_LEN` bound is an invariant. -/
theorem session_window_bound (w : World) (sid : String) (items : List (String × String))
    (h0 : sessGet w.sessions sid = []) :
    sessGet (append_all w sid items).sessions sid
        = (items.map (fun p => (⟨p.1, p.2, w.nowTs⟩ : Turn))).drop (items.length - SESSION_MAX_LEN)
    ∧ (sessGet (append_all w sid items).sessions sid).length
        = min items.length SESSION_MAX_LEN := by
  have h := append_all_stored w sid items h0
  constructor
  · rw [h]
    unfold lastN
    rw [List.length_map]
  · rw [h]
    unfold lastN
    rw [List.length_drop, List.length_map]
    omega

theorem session_window_bound_witness :
    (sessGet (append_all sampleWorld "s" [("user", "hi"), ("assistant", "yo")]).sessions "s"
        = ([("user", "hi"), ("assistant", "yo")].map
            (fun p => (⟨p.1, p.2, sampleWorld.nowTs⟩ : Turn))).drop
            ([("user", "hi"), ("assistant", "yo")].length - SESSION_MAX_LEN)
      ∧ (sessGet (append_all sampleWorld "s" [("user", "hi"), ("assistant", "yo")]).sessions "s").length
        = min [("user", "hi"), ("assistant", "yo")].length SESSION_MAX_LEN) :=
  session_window_bound sampleWorld "s" [("user", "hi"), ("assistant", "yo")] rfl

/-! ### C9: notification collaborators -/

theorem push_db (w : World) (e : String) : (w.push e).db = w.db := rfl

theorem push_today (w : World) (e : String) : (w.push e).today = w.today := rfl

theorem push_slackWebhook (w : World) (e : String) : (w.push e).slackWebhook = w.slackWebhook := rfl

theorem push_slackApiResult (w : World) (e : String) :
    (w.push e).slackApiResult = w.slackApiResult := rfl

/-- The `"ok"` field of a structured tool result (`none` when the call
raised). -/
def okFieldOf (r : Except PyErr PyVal) : Option PyVal :=
  match r with
  | .ok (.dict kvs) => some (pyLookupD kvs "ok" PyVal.none)
  | .ok _ => some PyVal.none
  | .error _ => Option.none

/-- The stats dict produced for the sample world (doctor `Dr. Ahuja`, default
reference date). -/
def sampleStats : PyVal :=
  .dict [("ok", .bool true), ("doctor", .str "Dr. Ahuja"), ("ref_date", .str "2025-12-01"),
    ("patients_yesterday", .int 0), ("patients_today", .int 0), ("patients_tomorrow", .int 0),
    ("reasons_breakdown", .dict []), ("top_reasons", .list [])]

/-- The summary text rendered from `sampleStats`. -/
def sampleSummary : String :=
  "Summary report for Dr. Ahuja — 2025-12-01\n- Patients yesterday: 0\n- Patients today: 0\n- Patients tomorrow: 0\n- Reason breakdown:\n  • No categorized reasons for this date."

/-- C9 counterexample: the chat-webhook collaborator with absent
configuration does not return a successful "simulated" outcome — it returns
a structured failure (`ok` flag `False`, error `no_slack_webhook`), refuting
the claim as stated for the chat-webhook collaborator. -/
theorem slack_unconfigured_is_failure_outcome :
    sampleWorld.slackWebhook = Option.none
    ∧ _send_slack_message sampleWorld "Summary" =
        (.dict [("ok", .bool false), ("error", .str "no_slack_webhook")], sampleWorld)
    ∧ truthy (pyLookupD [("ok", .bool false), ("error", .str "no_slack_webhook")] "ok" PyVal.none)
        = false :=
  ⟨rfl, rfl, rfl⟩

theorem slack_result_shape (w : World) (t : String)
    (h : w.slackWebhook = Option.none ∨ ∃ kvs, w.slackApiResult = .dict kvs) :
    ∃ kvs, (_send_slack_message w t).1 = .dict kvs := by
  unfold _send_slack_message
  cases hw : w.slackWebhook with
  | none => exact ⟨_, rfl⟩
  | some u =>
    rcases h with h | ⟨kvs, h⟩
    · rw [h] at hw; cases hw
    · exact ⟨kvs, by simp [h]⟩

/-- C9 amended: the calendar and email collaborators return successful
"simulated" structured outcomes when credentials are absent; the chat-webhook
collaborator instead returns a structured failure outcome (`ok` false,
`no_slack_webhook`) when unconfigured; and a booking or report tool call that
itself succeeds returns success regardless of the notification outcome (the
conclusion holds for every world, hence for every notification
configuration and every collaborator outcome). -/
theorem notification_degradation :
    (∀ (w : World) (d p s e : String), w.googleCreds = false →
      send_calendar_event_stub w d p s e =
        (.dict [("ok", .bool true), ("source", .str "simulated_calendar"),
                ("note", .str "missing_credentials_or_token")], w))
    ∧ (∀ (w : World) (t sub b : String), w.googleCreds = false →
      send_email_stub w t sub b =
        (.dict [("ok", .bool true), ("source", .str "simulated_email"),
                ("note", .str "missing_credentials_or_token")], w))
    ∧ (∀ (w : World) (t : String), w.slackWebhook = Option.none →
      _send_slack_message w t =
        (.dict [("ok", .bool false), ("error", .str "no_slack_webhook")], w))
    ∧ (∀ (w : World) (dn pn pe si ei rs : PyVal) (doc : Doctor) (sdt edt : PyDateTime),
      _get_doctor_by_name w.db dn = .ok (some doc) →
      fromisoformat si = .ok sdt → fromisoformat ei = .ok edt →
      w.db.appointments.find? (fun a =>
        a.doctor_id == doc.id && a.date == sdt.date && a.start_time == sdt.time) = Option.none →
      okFieldOf ((create_appointment w dn pn pe si ei rs).1) = some (.bool true))
    ∧ (∀ (w : World) (dn rd sn stats okv : PyVal) (txt : String) (dv rv : PyVal),
      get_doctor_stats w.db w.today dn rd = .ok stats →
      pyGetE stats "ok" = .ok okv → truthy okv = true →
      reportSummaryLines stats = .ok txt →
      pyItemE stats "doctor" = .ok dv → pyItemE stats "ref_date" = .ok rv →
      (w.slackWebhook = Option.none ∨ ∃ kvs, w.slackApiResult = .dict kvs) →
      okFieldOf ((get_doctor_summary_report w dn rd sn).1) = some (.bool true)) := by
  refine ⟨?_, ?_, ?_, ?_, ?_⟩
  · intro w d p s e hg
    simp [send_calendar_event_stub, send_calendar_event_google, hg, PyVal.isNone]
  · intro w t sub b hg
    simp [send_email_stub, send_email_gmail_api, hg, PyVal.isNone]
  · intro w t hs
    simp [_send_slack_message, hs]
  · intro w dn pn pe si ei rs doc sdt edt h1 h2 h3 h4
    simp only [create_appointment, push_db, h1, h2, h3, h4]
    split <;> rfl
  · intro w dn rd sn stats okv txt dv rv hs hok hokt hsum hdv hrv hsl
    rcases hms : _send_slack_message (w.push "get_doctor_summary_report") txt with ⟨nr, wn⟩
    obtain ⟨kvs, hkvs⟩ := slack_result_shape (w.push "get_doctor_summary_report") txt hsl
    rw [hms] at hkvs
    simp only at hkvs
    subst hkvs
    by_cases hsn : truthy sn <;> cases kvs with
    | nil =>
      simp only [get_doctor_summary_report, push_db, push_today, hs, except_bind_ok, hok, hokt,
        hsum, hdv, hrv, hsn, hms, except_pure_eq, except_map_ok, Bool.true_eq_false, if_false,
        Bool.false_eq_true, if_true]
      simp [pyGetE, okFieldOf, pyLookupD, truthy, List.find?, except_bind_ok, except_pure_eq,
        except_map_ok, hdv, hrv]
    | cons q qt =>
      simp only [get_doctor_summary_report, push_db, push_today, hs, except_bind_ok, hok, hokt,
        hsum, hdv, hrv, hsn, hms, except_pure_eq, except_map_ok, Bool.true_eq_false, if_false,
        Bool.false_eq_true, if_true]
      simp [pyGetE, okFieldOf, pyLookupD, truthy, List.find?, except_bind_ok, except_pure_eq,
        except_map_ok, hdv, hrv]

theorem notification_degradation_witness :
    (send_calendar_event_stub sampleWorld "Dr. Ahuja" "John" "2025-12-02T09:00:00" "2025-12-02T10:00:00" =
        (.dict [("ok", .bool true), ("source", .str "simulated_calendar"),
                ("note", .str "missing_credentials_or_token")], sampleWorld))
    ∧ (send_email_stub sampleWorld "p@example.com" "Appointment" "hello" =
        (.dict [("ok", .bool true), ("source", .str "simulated_email"),
                ("note", .str "missing_credentials_or_token")], sampleWorld))
    ∧ (_send_slack_message sampleWorld "hello" =
        (.dict [("ok", .bool false), ("error", .str "no_slack_webhook")], sampleWorld))
    ∧ okFieldOf ((create_appointment sampleWorld (.str "Dr. Ahuja") (.str "John")
        (.str "p@example.com") (.str "2025-12-02T09:00:00") (.str "2025-12-02T10:00:00")
        (.str "checkup")).1) = some (.bool true)
    ∧ okFieldOf ((get_doctor_summary_report sampleWorld (.str "Dr. Ahuja") PyVal.none
        (.bool true)).1) = some (.bool true) :=
  ⟨notification_degradation.1 sampleWorld "Dr. Ahuja" "John" "2025-12-02T09:00:00"
      "2025-12-02T10:00:00" rfl,
   notification_degradation.2.1 sampleWorld "p@example.com" "Appointment" "hello" rfl,
   notification_degradation.2.2.1 sampleWorld "hello" rfl,
   notification_degradation.2.2.2.1 sampleWorld (.str "Dr. Ahuja") (.str "John")
      (.str "p@example.com") (.str "2025-12-02T09:00:00") (.str "2025-12-02T10:00:00")
      (.str "checkup") ⟨1, "Dr. Ahuja"⟩ ⟨⟨2025, 12, 2⟩, ⟨9, 0, 0⟩⟩ ⟨⟨2025, 12, 2⟩, ⟨10, 0, 0⟩⟩
      rfl rfl rfl rfl,
   notification_degradation.2.2.2.2 sampleWorld (.str "Dr. Ahuja") PyVal.none (.bool true)
      sampleStats (.bool true) sampleSummary (.str "Dr. Ahuja") (.str "2025-12-01")
      rfl rfl rfl rfl rfl rfl (Or.inl rfl)⟩

/-! ### C1, C8: failure semantics of the Dialogue Driver -/

/-- The entry list of a dict value (empty for non-dicts). -/
def kvsOf : PyVal → List (String × PyVal)
  | .dict kvs => kvs
  | _ => []

/-- C1 (code bug): in fallback mode the booking-intent message
`book 2025-13-02T09:00 for John` contains a token matching the
`YYYY-MM-DDTHH:MM` shape and is classified as a booking request (first two
conjuncts), yet `process_user_message` raises the `ValueError` from
`datetime.fromisoformat` past the Dialogue Driver instead of converting the
failure into a degraded reply: that parse sits outside every `try/except`. -/
theorem booking_shape_token_raises_past_driver :
    searchDt ("book 2025-13-02T09:00 for John".toList) = some "2025-13-02T09:00"
    ∧ pyIn "book" (strLower "book 2025-13-02T09:00 for John") = true
    ∧ process_user_message sampleWorld false (fun _ _ => .error "unused") (fun _ => .error "unused")
        Option.none "book 2025-13-02T09:00 for John" (PyVal.dict [("role", .str "patient")])
      = .error (.valueErr "month must be in 1..12") :=
  ⟨rfl, rfl, rfl⟩

/-- C8 (code bug): when the first model exchange raises, the turn is not
degraded to the FallbackExchange path — `openai_agent_reply` returns the
hard-coded `OpenAI error: ... (falling back to mock)` reply with an empty
tool trace and never runs the Intent Parser, whose reply for the same turn
differs (third conjunct); through the driver the mode stays `openai`. -/
theorem model_failure_not_degraded_to_mock_path :
    openai_agent_reply sampleWorld (fun _ _ => .error "Connection error.")
        (fun _ => .error "Connection error.") "s1" "hello" (.dict [("role", .str "patient")])
      = .ok ({ reply := "OpenAI error: Connection error. (falling back to mock)",
               tool_calls := [] }, sampleWorld)
    ∧ (mock_agent_reply sampleWorld "hello" (.dict [("role", .str "patient")])).map
        (fun p => p.1.reply)
      = .ok "I didn\x27t understand. Try: \x27check Dr. Ahuja availability\x27, \x27book 2025-12-02T09:00 for John\x27, or \x27how many patients yesterday\x27."
    ∧ ("OpenAI error: Connection error. (falling back to mock)" : String)
      ≠ "I didn\x27t understand. Try: \x27check Dr. Ahuja availability\x27, \x27book 2025-12-02T09:00 for John\x27, or \x27how many patients yesterday\x27."
    ∧ (process_user_message sampleWorld true (fun _ _ => .error "Connection error.")
        (fun _ => .error "Connection error.") (some "s1") "hello"
        (.dict [("role", .str "patient")])).map (fun p => pyLookupD (kvsOf p.1) "mode" PyVal.none)
      = .ok (.str "openai") :=
  ⟨rfl, rfl, by decide, rfl⟩

/-! ### C5: booking conflict -/

theorem find?_append_none {α : Type} (p : α → Bool) (l1 l2 : List α)
    (h : l1.find? p = Option.none) : (l1 ++ l2).find? p = l2.find? p := by
  induction l1 with
  | nil => rfl
  | cons a t ih =>
    have hp : p a = false := by
      cases hp : p a
      · rfl
      · rw [List.find?_cons_of_pos _ hp] at h; cases h
    rw [List.cons_append, List.find?_cons_of_neg _ (by simp [hp])]
    rw [List.find?_cons_of_neg _ (by simp [hp])] at h
    exact ih h

theorem get_doctor_congr (db1 db2 : DB) (hd : db1.doctors = db2.doctors) (v : PyVal) :
    _get_doctor_by_name db1 v = _get_doctor_by_name db2 v := by
  unfold _get_doctor_by_name
  rw [hd]

theorem cal_google_world_db (w : World) (a b c d : String) :
    (send_calendar_event_google w a b c d).2.db = w.db := by
  unfold send_calendar_event_google
  cases hg : w.googleCreds <;> simp [hg, push_db]

theorem cal_stub_world_db (w : World) (a b c d : String) :
    (send_calendar_event_stub w a b c d).2.db = w.db := by
  unfold send_calendar_event_stub
  have hdb := cal_google_world_db w a b c d
  rcases hc : send_calendar_event_google w a b c d with ⟨res, w2⟩
  rw [hc] at hdb
  cases hres : res.isNone <;> simpa [hres] using hdb

theorem email_google_world_db (w : World) (a b c : String) :
    (send_email_gmail_api w a b c).2.db = w.db := by
  unfold send_email_gmail_api
  cases hg : w.googleCreds <;> simp [hg, push_db]

theorem email_stub_world_db (w : World) (a b c : String) :
    (send_email_stub w a b c).2.db = w.db := by
  unfold send_email_stub
  have hdb := email_google_world_db w a b c
  rcases hc : send_email_gmail_api w a b c with ⟨res, w2⟩
  rw [hc] at hdb
  cases hres : res.isNone <;> simpa [hres] using hdb

/-- C5: with the doctor present and a previously free slot, the first
`create_appointment` call succeeds (success flag true) and appends exactly
one appointment row; a second call for the same doctor name, start date and
start time returns the structured `Slot already booked` error and leaves the
appointment store unchanged (no second row). -/
theorem double_booking_rejected
    (w : World) (dn pn pe si ei rs pn2 pe2 ei2 rs2 : PyVal) (doc : Doctor)
    (sdt edt edt2 : PyDateTime)
    (h1 : _get_doctor_by_name w.db dn = .ok (some doc))
    (h2 : fromisoformat si = .ok sdt)
    (h3 : fromisoformat ei = .ok edt)
    (h4 : w.db.appointments.find? (fun a =>
      a.doctor_id == doc.id && a.date == sdt.date && a.start_time == sdt.time) = Option.none)
    (h5 : fromisoformat ei2 = .ok edt2) :
    okFieldOf ((create_appointment w dn pn pe si ei rs).1) = some (.bool true)
    ∧ ((create_appointment w dn pn pe si ei rs).2).db.appointments
        = w.db.appointments
          ++ [⟨w.db.nextApptId, doc.id, pyStr pn, sdt.date, sdt.time, edt.time,
               if truthy rs then pyStr rs else ""⟩]
    ∧ (create_appointment ((create_appointment w dn pn pe si ei rs).2) dn pn2 pe2 si ei2 rs2).1
        = .ok (.dict [("ok", .bool false), ("error", .str "Slot already booked")])
    ∧ ((create_appointment ((create_appointment w dn pn pe si ei rs).2) dn pn2 pe2 si ei2 rs2).2).db
        = ((create_appointment w dn pn pe si ei rs).2).db := by
  have hw1db : ((create_appointment w dn pn pe si ei rs).2).db
      = ⟨w.db.doctors,
         w.db.appointments
           ++ [⟨w.db.nextApptId, doc.id, pyStr pn, sdt.date, sdt.time, edt.time,
                if truthy rs then pyStr rs else ""⟩],
         w.db.nextApptId + 1⟩ := by
    simp only [create_appointment, push_db, h1, h2, h3, h4]
    rw [email_stub_world_db, cal_stub_world_db]
  have hdoc2 : _get_doctor_by_name ((create_appointment w dn pn pe si ei rs).2).db dn
      = .ok (some doc) := by
    rw [get_doctor_congr _ w.db (by rw [hw1db]) dn]
    exact h1
  have hconf : (((create_appointment w dn pn pe si ei rs).2).db.appointments).find? (fun a =>
      a.doctor_id == doc.id && a.date == sdt.date && a.start_time == sdt.time)
      = some ⟨w.db.nextApptId, doc.id, pyStr pn, sdt.date, sdt.time, edt.time,
              if truthy rs then pyStr rs else ""⟩ := by
    rw [hw1db]
    rw [find?_append_none _ _ _ h4]
    simp [List.find?]
  set W2 := (create_appointment w dn pn pe si ei rs).2 with hW2
  refine ⟨?_, ?_, ?_, ?_⟩
  · simp only [create_appointment, push_db, h1, h2, h3, h4]
    rfl
  · rw [hw1db]
  · simp only [create_appointment, push_db, hdoc2, h2, h5, hconf]
  · simp only [create_appointment, push_db, hdoc2, h2, h5, hconf]

theorem double_booking_rejected_witness :
    okFieldOf ((create_appointment sampleWorld (.str "Dr. Ahuja") (.str "John")
        (.str "j@x.com") (.str "2025-12-02T09:00") (.str "2025-12-02T10:00") (.str "flu")).1)
      = some (.bool true)
    ∧ ((create_appointment sampleWorld (.str "Dr. Ahuja") (.str "John")
        (.str "j@x.com") (.str "2025-12-02T09:00") (.str "2025-12-02T10:00") (.str "flu")).2).db.appointments
      = sampleWorld.db.appointments
        ++ [⟨sampleWorld.db.nextApptId, 1, pyStr (.str "John"), ⟨2025, 12, 2⟩, ⟨9, 0, 0⟩, ⟨10, 0, 0⟩,
             if truthy (.str "flu") then pyStr (.str "flu") else ""⟩]
    ∧ (create_appointment ((create_appointment sampleWorld (.str "Dr. Ahuja") (.str "John")
        (.str "j@x.com") (.str "2025-12-02T09:00") (.str "2025-12-02T10:00") (.str "flu")).2)
        (.str "Dr. Ahuja") (.str "Mary") (.str "m@x.com") (.str "2025-12-02T09:00")
        (.str "2025-12-02T11:00") PyVal.none).1
      = .ok (.dict [("ok", .bool false), ("error", .str "Slot already booked")])
    ∧ ((create_appointment ((create_appointment sampleWorld (.str "Dr. Ahuja") (.str "John")
        (.str "j@x.com") (.str "2025-12-02T09:00") (.str "2025-12-02T10:00") (.str "flu")).2)
        (.str "Dr. Ahuja") (.str "Mary") (.str "m@x.com") (.str "2025-12-02T09:00")
        (.str "2025-12-02T11:00") PyVal.none).2).db
      = ((create_appointment sampleWorld (.str "Dr. Ahuja") (.str "John")
        (.str "j@x.com") (.str "2025-12-02T09:00") (.str "2025-12-02T10:00") (.str "flu")).2).db :=
  double_booking_rejected sampleWorld (.str "Dr. Ahuja") (.str "John") (.str "j@x.com")
    (.str "2025-12-02T09:00") (.str "2025-12-02T10:00") (.str "flu") (.str "Mary") (.str "m@x.com")
    (.str "2025-12-02T11:00") PyVal.none ⟨1, "Dr. Ahuja"⟩ ⟨⟨2025, 12, 2⟩, ⟨9, 0, 0⟩⟩
    ⟨⟨2025, 12, 2⟩, ⟨10, 0, 0⟩⟩ ⟨⟨2025, 12, 2⟩, ⟨11, 0, 0⟩⟩ rfl rfl rfl rfl rfl

/-! ### C10: availability slots -/

theorem gen_slots_go_mem (d : PyDate) (ex : List PyTime) :
    ∀ (n hour : Nat) (s : PyVal), s ∈ gen_slots_go d ex hour n →
      ∃ hr, hour ≤ hr ∧ hr < hour + n ∧ (⟨hr, 0, 0⟩ : PyTime) ∉ ex ∧ s = slotDict d hr := by
  intro n
  induction n with
  | zero =>
    intro hour s h
    simp [gen_slots_go] at h
  | succ k ih =>
    intro hour s h
    rw [gen_slots_go] at h
    rw [List.mem_append] at h
    rcases h with h | h
    · by_cases hm : (⟨hour, 0, 0⟩ : PyTime) ∈ ex
      · simp [hm] at h
      · simp [hm] at h
        exact ⟨hour, Nat.le_refl _, by omega, hm, h⟩
    · obtain ⟨hr, h1, h2, h3, h4⟩ := ih (hour + SLOT_MINUTES / 60) s h
      simp [SLOT_MINUTES] at h1 h2
      exact ⟨hr, by omega, by omega, h3, h4⟩

theorem gen_slots_mem (d : PyDate) (ex : List PyTime) (sh eh : Nat) (s : PyVal)
    (h : s ∈ gen_slots d ex sh eh) :
    ∃ hr, sh ≤ hr ∧ hr < eh ∧ (⟨hr, 0, 0⟩ : PyTime) ∉ ex ∧ s = slotDict d hr := by
  unfold gen_slots at h
  obtain ⟨hr, h1, h2, h3, h4⟩ := gen_slots_go_mem d ex (eh - sh) sh s h
  exact ⟨hr, h1, by omega, h3, h4⟩

theorem foldl_append_bind {α β : Type} (f : α → List β) (l : List α) :
    ∀ init : List β, l.foldl (fun acc x => acc ++ f x) init = init ++ l.flatMap f := by
  induction l with
  | nil => intro init; simp
  | cons a t ih =>
    intro init
    simp only [List.foldl_cons, ih, List.flatMap_cons, List.append_assoc]

/-- C10: with the doctor present, a parsed date range and a recognized
time-of-day filter window `(sh, eh)`, the availability query returns a
success result whose every offered slot starts at a whole hour inside the
window, spans exactly one hour (`hr:00` to `hr+1:00` on the same date), and
does not collide with the start time of any existing appointment of that
doctor on that date. -/
theorem availability_slots_valid
    (w : World) (dn sd ed tod : PyVal) (doc : Doctor) (sdt : PyDateTime) (ed_date : PyDate)
    (sh eh : Nat)
    (h1 : _get_doctor_by_name w.db dn = .ok (some doc))
    (h2 : fromisoformat sd = .ok sdt)
    (h3 : (if truthy ed then (fromisoformat ed).map (fun dt => dt.date) else pure sdt.date)
          = Except.ok ed_date)
    (h4 : parse_time_of_day_filter tod = .ok (sh, eh)) :
    ∃ slots,
      get_doctor_availability w dn sd ed tod
        = (.ok (.dict [("ok", .bool true), ("doctor", .str doc.name),
            ("available_slots", .list slots)]), w.push "get_doctor_availability")
      ∧ ∀ s ∈ slots, ∃ d hr, sh ≤ hr ∧ hr < eh
          ∧ s = .dict [("date", .str d.isoformat),
              ("start_time", .str (PyTime.isoformat ⟨hr, 0, 0⟩)),
              ("end_time", .str (PyTime.isoformat ⟨hr + 1, 0, 0⟩)),
              ("start_iso", .str (time_to_iso d ⟨hr, 0, 0⟩)),
              ("end_iso", .str (time_to_iso d ⟨hr + 1, 0, 0⟩))]
          ∧ ∀ a ∈ w.db.appointments, a.doctor_id = doc.id → a.date = d →
              a.start_time ≠ ⟨hr, 0, 0⟩ := by
  refine ⟨(daterange sdt.date ed_date).flatMap
    (fun d => gen_slots d (_existing_slots_for_date w.db doc.id d) sh eh), ?_, ?_⟩
  · simp only [get_doctor_availability, push_db, h1, h2, h4, except_bind_ok]
    cases hed : truthy ed with
    | true =>
      rw [hed] at h3
      simp only [if_true] at h3
      simp only [hed, if_true, h3, except_bind_ok, except_pure_eq]
      rw [foldl_append_bind]
      rfl
    | false =>
      rw [hed] at h3
      simp only [Bool.false_eq_true, if_false, except_pure_eq] at h3
      injection h3 with h3
      subst h3
      simp only [hed, Bool.false_eq_true, if_false, except_pure_eq, except_bind_ok]
      rw [foldl_append_bind]
      rfl
  · intro s hs
    rw [List.mem_flatMap] at hs
    obtain ⟨d, hd, hsl⟩ := hs
    obtain ⟨hr, hge, hlt, hnotin, hseq⟩ := gen_slots_mem d _ sh eh s hsl
    refine ⟨d, hr, hge, hlt, by rw [hseq]; rfl, ?_⟩
    intro a ha hdid hdate hst
    apply hnotin
    unfold _existing_slots_for_date
    rw [List.mem_map]
    refine ⟨a, ?_, hst⟩
    rw [List.mem_filter]
    exact ⟨ha, by simp [hdid, hdate]⟩

theorem availability_slots_valid_witness :
    ∃ slots,
      get_doctor_availability sampleWorld (.str "Dr. Ahuja") (.str "2025-12-01") PyVal.none PyVal.none
        = (.ok (.dict [("ok", .bool true), ("doctor", .str "Dr. Ahuja"),
            ("available_slots", .list slots)]), sampleWorld.push "get_doctor_availability")
      ∧ ∀ s ∈ slots, ∃ d hr, 9 ≤ hr ∧ hr < 17
          ∧ s = .dict [("date", .str d.isoformat),
              ("start_time", .str (PyTime.isoformat ⟨hr, 0, 0⟩)),
              ("end_time", .str (PyTime.isoformat ⟨hr + 1, 0, 0⟩)),
              ("start_iso", .str (time_to_iso d ⟨hr, 0, 0⟩)),
              ("end_iso", .str (time_to_iso d ⟨hr + 1, 0, 0⟩))]
          ∧ ∀ a ∈ sampleWorld.db.appointments, a.doctor_id = (⟨1, "Dr. Ahuja"⟩ : Doctor).id →
              a.date = d → a.start_time ≠ ⟨hr, 0, 0⟩ :=
  availability_slots_valid sampleWorld (.str "Dr. Ahuja") (.str "2025-12-01") PyVal.none PyVal.none
    ⟨1, "Dr. Ahuja"⟩ ⟨⟨2025, 12, 1⟩, ⟨0, 0, 0⟩⟩ ⟨2025, 12, 1⟩ 9 17 rfl rfl rfl rfl

/-! ### C7: totality of the deterministic summarizer -/

/-- Dict check. -/
def isDictB : PyVal → Bool
  | .dict _ => true
  | _ => false

/-- Int-like check (Python `bool` is an `int`). -/
def intLike : PyVal → Bool
  | .int _ => true
  | .bool _ => true
  | _ => false

/-- The slot shape rendered by the availability branch: a dict carrying
`start_iso` and `end_iso`. -/
def slotShape (s : PyVal) : Bool :=
  match s with
  | .dict kvs => (kvs.find? (fun p => p.1 == "start_iso")).isSome
      && (kvs.find? (fun p => p.1 == "end_iso")).isSome
  | _ => false

/-- The defined result shapes of `get_doctor_availability` (success with a
list of slot dicts, or the structured error shape with no truthy slot
field). -/
def availShape (res : PyVal) : Bool :=
  match res with
  | .dict kvs =>
    let slots := pyLookupD kvs "available_slots" (.list [])
    if truthy slots then
      match slots with
      | .list xs => xs.all slotShape
      | _ => false
    else true
  | _ => false

/-- The defined result shapes of `create_appointment` (success carries a
dict-shaped calendar outcome; the error shape is unconstrained). -/
def createShape (res : PyVal) : Bool :=
  match res with
  | .dict kvs =>
    if truthy (pyLookupD kvs "ok" PyVal.none) then
      isDictB (pyLookupD kvs "calendar" (.dict []))
    else true
  | _ => false

/-- The shape of one ranked reason entry: a dict with a string `reason` and a
present `count`. -/
def topReasonShape (tr : PyVal) : Bool :=
  match tr with
  | .dict kvs =>
    (match pyLookupD kvs "reason" PyVal.none with
      | .str _ => true
      | _ => false)
      && (kvs.find? (fun p => p.1 == "count")).isSome
  | _ => false

/-- The shape of the raw counters dict used by the fallback rendering of a
report result. -/
def rawStatsShape (raw : PyVal) : Bool :=
  match raw with
  | .dict kvs =>
    let top0 := pyLookupD kvs "top_reasons" PyVal.none
    let top := if truthy top0 then top0 else .list []
    if truthy top then
      match top with
      | .list xs => xs.all topReasonShape
      | _ => false
    else
      match pyLookupD kvs "reasons_breakdown" (.dict []) with
      | .dict rb => rb.all (fun p => intLike p.2)
      | _ => false
  | _ => false

/-- The defined result shapes of `get_doctor_summary_report`: success with a
usable `summary_text`, or success whose `raw_stats` has the raw-counter
shape, or the structured error shape. -/
def reportShape (res : PyVal) : Bool :=
  match res with
  | .dict kvs =>
    if truthy (pyLookupD kvs "ok" PyVal.none) then
      match pyLookupD kvs "summary_text" PyVal.none with
      | .str st =>
        if st ≠ "" && strTrim st ≠ "" then true
        else rawStatsShape (pyLookupD kvs "raw_stats" (.dict []))
      | _ => rawStatsShape (pyLookupD kvs "raw_stats" (.dict []))
    else true
  | _ => false

/-- An entry of the summarizer's input list whose result has one of the
defined success or error shapes of the three registered tools; entries naming
any other tool are unconstrained. -/
def definedEntry (e : PyVal) : Bool :=
  match e with
  | .dict kvs =>
    let tool := pyLookupD kvs "tool" PyVal.none
    let res := pyLookupD kvs "result" (.dict [])
    if isStrEq tool "get_doctor_availability" then availShape res
    else if isStrEq tool "create_appointment" then createShape res
    else if isStrEq tool "get_doctor_summary_report" then reportShape res
    else true
  | _ => false

theorem mk_ne_empty {cs : List Char} (h : cs ≠ []) : String.mk cs ≠ "" := by
  intro he
  exact h (congrArg String.data he)

theorem prefixed_ne_empty (p s : String) (hp : p.length ≠ 0) : p ++ s ≠ "" := by
  intro h
  have hl := congrArg String.length h
  rw [String.length_append] at hl
  simp at hl
  omega

theorem natDigits_ne_nil (fuel n : Nat) : natDigits (fuel + 1) n ≠ [] := by
  rw [natDigits]
  split
  · simp
  · simp

theorem natToStr_ne_empty (n : Nat) : natToStr n ≠ "" :=
  mk_ne_empty (natDigits_ne_nil n n)

theorem length_ne_zero_of_ne_empty (x : String) (hx : x ≠ "") : x.length ≠ 0 := by
  intro h0
  apply hx
  cases x with
  | mk d =>
    have hd : d.length = 0 := h0
    rw [List.length_eq_zero] at hd
    subst hd
    rfl

theorem natToStr_length_pos (n : Nat) : (natToStr n).length ≠ 0 :=
  length_ne_zero_of_ne_empty _ (natToStr_ne_empty n)

theorem intToStr_ne_empty (n : Int) : intToStr n ≠ "" := by
  unfold intToStr
  split
  · exact prefixed_ne_empty "-" _ (by decide)
  · exact natToStr_ne_empty _

theorem dumps_ne_empty (v : PyVal) : dumps v ≠ "" := by
  cases v with
  | none => decide
  | bool b => cases b <;> decide
  | int n => exact intToStr_ne_empty n
  | str s => rw [dumps]; exact prefixed_ne_empty "\"" _ (by decide)
  | list xs => rw [dumps]; exact prefixed_ne_empty "[" _ (by decide)
  | dict kvs => rw [dumps]; exact prefixed_ne_empty "\x7b" _ (by decide)

theorem joinNL_ne_empty (x : String) (rest : List String) (hx : x ≠ "") :
    joinNL (x :: rest) ≠ "" := by
  cases rest with
  | nil => exact hx
  | cons y t =>
    rw [joinNL]
    intro h
    have hl := congrArg String.length h
    rw [String.length_append, String.length_append] at hl
    have hx0 : x.length ≠ 0 := length_ne_zero_of_ne_empty x hx
    simp at hl
    omega

theorem mapM_ok_of_forall {α β : Type} (f : α → Except PyErr β) (l : List α)
    (hf : ∀ a ∈ l, ∃ b, f a = .ok b) : ∃ out, l.mapM f = .ok out := by
  induction l with
  | nil => exact ⟨[], rfl⟩
  | cons a t ih =>
    obtain ⟨b, hb⟩ := hf a (List.mem_cons_self a t)
    obtain ⟨out, hout⟩ := ih (fun x hx => hf x (List.mem_cons_of_mem a hx))
    refine ⟨b :: out, ?_⟩
    rw [List.mapM_cons, hb, except_bind_ok, hout, except_bind_ok]
    rfl

theorem availSlotLine_ok (s : PyVal) (h : slotShape s = true) :
    ∃ t, availSlotLine s = .ok t := by
  cases s with
  | dict kvs =>
    simp only [slotShape, Bool.and_eq_true] at h
    obtain ⟨p1, hp1⟩ := Option.isSome_iff_exists.mp h.1
    obtain ⟨p2, hp2⟩ := Option.isSome_iff_exists.mp h.2
    refine ⟨" • " ++ pyStr p1.2 ++ " — " ++ pyStr p2.2, ?_⟩
    simp only [availSlotLine, pyItemE, hp1, hp2, except_bind_ok]
    rfl
  | none => simp [slotShape] at h
  | bool b => simp [slotShape] at h
  | int n => simp [slotShape] at h
  | str t => simp [slotShape] at h
  | list xs => simp [slotShape] at h

theorem sortDescPyItems_ok (items : List (String × PyVal))
    (h : ∀ p ∈ items, intLike p.2 = true) :
    ∃ out, sortDescPyItems items = .ok out := by
  have hm : ∀ p ∈ items, ∃ b, (do
      let n ← pyToIntE p.2
      pure (p, n) : Except PyErr ((String × PyVal) × Int)) = .ok b := by
    intro p hp
    have := h p hp
    cases hv : p.2 with
    | int n => exact ⟨(p, n), by simp only [pyToIntE, hv, except_bind_ok]; rfl⟩
    | bool b => exact ⟨(p, if b then 1 else 0), by simp only [pyToIntE, hv, except_bind_ok]; rfl⟩
    | none => rw [hv] at this; simp [intLike] at this
    | str s => rw [hv] at this; simp [intLike] at this
    | list xs => rw [hv] at this; simp [intLike] at this
    | dict kvs => rw [hv] at this; simp [intLike] at this
  obtain ⟨keyed, hkeyed⟩ := mapM_ok_of_forall _ items hm
  refine ⟨(keyed.foldl (fun acc p => insertDescKeyed p acc) []).map (fun p => p.1), ?_⟩
  simp only [sortDescPyItems, hkeyed, except_bind_ok]
  rfl

theorem topReasonLine_ok (r : PyVal) (h : topReasonShape r = true) :
    ∃ t, (do
      let rr ← pyItemE r "reason"
      let rt ← pyTitleE rr
      let c ← pyItemE r "count"
      pure ("• " ++ rt ++ ": " ++ pyStr c) : Except PyErr String) = .ok t := by
  cases r with
  | dict kvs =>
    simp only [topReasonShape, Bool.and_eq_true] at h
    obtain ⟨h1, h2⟩ := h
    obtain ⟨p2, hp2⟩ := Option.isSome_iff_exists.mp h2
    unfold pyLookupD at h1
    cases hf : kvs.find? (fun p => p.1 == "reason") with
    | none => rw [hf] at h1; simp at h1
    | some p =>
      rw [hf] at h1
      cases hp : p.2 with
      | str st =>
        refine ⟨"• " ++ pyTitle st ++ ": " ++ pyStr p2.2, ?_⟩
        simp only [pyItemE, hf, hp, hp2, pyTitleE, except_bind_ok]
        rfl
      | none => simp [hp] at h1
      | bool b => simp [hp] at h1
      | int n => simp [hp] at h1
      | list xs => simp [hp] at h1
      | dict kvs2 => simp [hp] at h1
  | none => simp [topReasonShape] at h
  | bool b => simp [topReasonShape] at h
  | int n => simp [topReasonShape] at h
  | str s => simp [topReasonShape] at h
  | list xs => simp [topReasonShape] at h

theorem pyGetE_dict (kvs : List (String × PyVal)) (k : String) (d : PyVal) :
    pyGetE (.dict kvs) k d = .ok (pyLookupD kvs k d) := rfl

theorem truthy_list_nil : truthy (PyVal.list []) = false := rfl

theorem pySliceE_list (xs : List PyVal) (n : Nat) :
    pySliceE (.list xs) n = .ok (xs.take n) := rfl

theorem pyDictItemsE_dict (kvs : List (String × PyVal)) :
    pyDictItemsE (.dict kvs) = .ok kvs := rfl

theorem append_ne_empty_left (p s : String) (hp : p ≠ "") : p ++ s ≠ "" := by
  intro h
  have hl := congrArg String.length h
  rw [String.length_append] at hl
  have := length_ne_zero_of_ne_empty p hp
  simp at hl
  omega

theorem ne_empty_of_length_ne_zero (x : String) (h : x.length ≠ 0) : x ≠ "" := by
  intro he
  rw [he] at h
  exact h rfl

theorem rawStatsLines_ok (kvs : List (String × PyVal))
    (h : rawStatsShape (pyLookupD kvs "raw_stats" (.dict [])) = true) :
    ∃ ls, rawStatsLines (.dict kvs) = .ok ls ∧ ∃ x ∈ ls, x ≠ "" := by
  cases hraw : pyLookupD kvs "raw_stats" (.dict []) with
  | dict rkvs =>
    rw [hraw] at h
    simp only [rawStatsShape] at h
    by_cases ht0 : truthy (pyLookupD rkvs "top_reasons" PyVal.none)
    · rw [if_pos (by rw [if_pos ht0]; exact ht0)] at h
      cases htop : pyLookupD rkvs "top_reasons" PyVal.none with
      | list xs =>
        rw [if_pos ht0, htop] at h
        have hmap : ∀ r ∈ xs.take 10, ∃ t, (do
            let rr ← pyItemE r "reason"
            let rt ← pyTitleE rr
            let c ← pyItemE r "count"
            pure ("• " ++ rt ++ ": " ++ pyStr c) : Except PyErr String) = .ok t := by
          intro r hr
          exact topReasonLine_ok r (List.all_eq_true.mp h r (List.take_subset 10 xs hr))
        obtain ⟨ps, hps⟩ := mapM_ok_of_forall _ _ hmap
        simp only [except_pure_eq] at hps
        have ht0x : truthy (PyVal.list xs) = true := htop ▸ ht0
        refine ⟨?_, ?_, ?_⟩
        case _ => exact (["Summary report for " ++ pyStr (pyLookupD rkvs "doctor" (.str "Doctor"))
            ++ " — " ++ pyStr (pyLookupD rkvs "ref_date" (.str "")), "",
          "- Patients yesterday: " ++ pyStr (pyLookupD rkvs "patients_yesterday" (.int 0)), "",
          "- Patients today: " ++ pyStr (pyLookupD rkvs "patients_today" (.int 0)), "",
          "- Patients tomorrow: " ++ pyStr (pyLookupD rkvs "patients_tomorrow" (.int 0)), "",
          "- Reason breakdown:", ""]
          ++ (if !ps.isEmpty then ps else ["• No categorized reasons available."])
          ++ ["", "Notification sent: "
                ++ (if truthy (pyLookupD kvs "notification_sent" (.bool false)) then "Yes" else "No")])
        · simp only [rawStatsLines, pyGetE_dict, except_bind_ok, hraw, htop, ht0x, if_true,
            pySliceE_list, hps, except_pure_eq]
        · refine ⟨"- Reason breakdown:", ?_, by decide⟩
          exact List.mem_append_left _ (List.mem_append_left _
            (.tail _ (.tail _ (.tail _ (.tail _ (.tail _ (.tail _ (.tail _ (.tail _ (.head _))))))))))
      | none => rw [htop] at ht0; simp [truthy] at ht0
      | bool b =>
        rw [if_pos ht0, htop] at h
        simp at h
      | int n =>
        rw [if_pos ht0, htop] at h
        simp at h
      | str s =>
        rw [if_pos ht0, htop] at h
        simp at h
      | dict dkvs =>
        rw [if_pos ht0, htop] at h
        simp at h
    · rw [if_neg (by rw [if_neg ht0]; simp [truthy])] at h
      cases hrb : pyLookupD rkvs "reasons_breakdown" (.dict []) with
      | dict rb =>
        rw [hrb] at h
        obtain ⟨out, hout⟩ := sortDescPyItems_ok rb (fun p hp => List.all_eq_true.mp h p hp)
        have ht0b : truthy (pyLookupD rkvs "top_reasons" PyVal.none) = false := by
          cases hh : truthy (pyLookupD rkvs "top_reasons" PyVal.none)
          · rfl
          · exact absurd hh ht0
        refine ⟨?_, ?_, ?_⟩
        case _ => exact (["Summary report for " ++ pyStr (pyLookupD rkvs "doctor" (.str "Doctor"))
            ++ " — " ++ pyStr (pyLookupD rkvs "ref_date" (.str "")), "",
          "- Patients yesterday: " ++ pyStr (pyLookupD rkvs "patients_yesterday" (.int 0)), "",
          "- Patients today: " ++ pyStr (pyLookupD rkvs "patients_today" (.int 0)), "",
          "- Patients tomorrow: " ++ pyStr (pyLookupD rkvs "patients_tomorrow" (.int 0)), "",
          "- Reason breakdown:", ""]
          ++ (if !((out.map (fun p => "• " ++ pyTitle p.1 ++ ": " ++ pyStr p.2)).take 10).isEmpty
              then (out.map (fun p => "• " ++ pyTitle p.1 ++ ": " ++ pyStr p.2)).take 10
              else ["• No categorized reasons available."])
          ++ ["", "Notification sent: "
                ++ (if truthy (pyLookupD kvs "notification_sent" (.bool false)) then "Yes" else "No")])
        · simp only [rawStatsLines, pyGetE_dict, except_bind_ok, hraw, ht0b, Bool.false_eq_true,
            if_false, truthy_list_nil, hrb, pyDictItemsE_dict, hout, except_pure_eq]
        · refine ⟨"- Reason breakdown:", ?_, by decide⟩
          exact List.mem_append_left _ (List.mem_append_left _
            (.tail _ (.tail _ (.tail _ (.tail _ (.tail _ (.tail _ (.tail _ (.tail _ (.head _))))))))))
      | none => rw [hrb] at h; simp at h
      | bool b => rw [hrb] at h; simp at h
      | int n => rw [hrb] at h; simp at h
      | str s => rw [hrb] at h; simp at h
      | list xs => rw [hrb] at h; simp at h
  | none => rw [hraw] at h; simp [rawStatsShape] at h
  | bool b => rw [hraw] at h; simp [rawStatsShape] at h
  | int n => rw [hraw] at h; simp [rawStatsShape] at h
  | str s => rw [hraw] at h; simp [rawStatsShape] at h
  | list xs => rw [hraw] at h; simp [rawStatsShape] at h

theorem entry_lines_ok (e : PyVal) (he : definedEntry e = true) :
    ∃ ls, summarizeEntryLines e = .ok ls ∧ ∃ x ∈ ls, x ≠ "" := by
  cases e with
  | dict ekvs =>
    simp only [definedEntry] at he
    by_cases h1 : isStrEq (pyLookupD ekvs "tool" PyVal.none) "get_doctor_availability" = true
    · rw [if_pos h1] at he
      cases hresv : pyLookupD ekvs "result" (PyVal.dict []) with
      | dict rkvs =>
        rw [hresv] at he
        simp only [availShape] at he
        by_cases hsl : truthy (pyLookupD rkvs "available_slots" (PyVal.list [])) = true
        · rw [if_pos hsl] at he
          cases hslv : pyLookupD rkvs "available_slots" (PyVal.list []) with
          | list xs =>
            rw [hslv] at he
            have hslx : truthy (PyVal.list xs) = true := hslv ▸ hsl
            have hmap : ∀ s ∈ xs.take 6, ∃ t, availSlotLine s = .ok t := by
              intro s hs
              exact availSlotLine_ok s (List.all_eq_true.mp he s (List.take_subset 6 xs hs))
            obtain ⟨ts, hts⟩ := mapM_ok_of_forall _ _ hmap
            refine ⟨"Available slots:" :: ts, ?_, "Available slots:", List.mem_cons_self _ _,
              by decide⟩
            simp only [summarizeEntryLines, pyGetE_dict, except_bind_ok, h1, if_pos, hresv,
              hslv, hslx, Bool.true_eq_false, if_false, pySliceE_list, hts, except_pure_eq]
          | none => rw [hslv] at hsl; simp [truthy] at hsl
          | bool b => rw [hslv] at he; simp at he
          | int n => rw [hslv] at he; simp at he
          | str s => rw [hslv] at he; simp at he
          | dict d => rw [hslv] at he; simp at he
        · have hslf : truthy (pyLookupD rkvs "available_slots" (PyVal.list [])) = false := by
            cases hh : truthy (pyLookupD rkvs "available_slots" (PyVal.list []))
            · rfl
            · exact absurd hh hsl
          refine ⟨["No available slots found."], ?_, "No available slots found.",
            List.mem_cons_self _ _, by decide⟩
          simp only [summarizeEntryLines, pyGetE_dict, except_bind_ok, h1, if_pos, hresv,
            hslf, except_pure_eq, if_true]
      | none => rw [hresv] at he; simp [availShape] at he
      | bool b => rw [hresv] at he; simp [availShape] at he
      | int n => rw [hresv] at he; simp [availShape] at he
      | str s => rw [hresv] at he; simp [availShape] at he
      | list xs => rw [hresv] at he; simp [availShape] at he
    · by_cases h2 : isStrEq (pyLookupD ekvs "tool" PyVal.none) "create_appointment" = true
      · rw [if_neg h1, if_pos h2] at he
        cases hresv : pyLookupD ekvs "result" (PyVal.dict []) with
        | dict rkvs =>
          rw [hresv] at he
          simp only [createShape] at he
          by_cases hok : truthy (pyLookupD rkvs "ok" PyVal.none) = true
          · rw [if_pos hok] at he
            cases hcal : pyLookupD rkvs "calendar" (PyVal.dict []) with
            | dict ckvs =>
              by_cases hhl : truthy (pyLookupD ckvs "htmlLink" PyVal.none) = true
              · refine ⟨["Appointment created (id: "
                    ++ pyStr (pyLookupD rkvs "appointment_id" PyVal.none) ++ "). "
                    ++ pyStr (pyLookupD ckvs "htmlLink" PyVal.none)], ?_, _,
                  List.mem_cons_self _ _,
                  append_ne_empty_left _ _ (append_ne_empty_left _ _
                    (append_ne_empty_left _ _ (by decide)))⟩
                simp only [summarizeEntryLines, pyGetE_dict, except_bind_ok, h1,
                  Bool.false_eq_true, if_false, h2, if_true, hresv, hok, hcal, hhl,
                  except_pure_eq]
              · have hhlf : truthy (pyLookupD ckvs "htmlLink" PyVal.none) = false := by
                  cases hh : truthy (pyLookupD ckvs "htmlLink" PyVal.none)
                  · rfl
                  · exact absurd hh hhl
                refine ⟨["Appointment created (id: "
                    ++ pyStr (pyLookupD rkvs "appointment_id" PyVal.none) ++ "). "
                    ++ pyStr (pyLookupD ckvs "note" (PyVal.str ""))], ?_, _,
                  List.mem_cons_self _ _,
                  append_ne_empty_left _ _ (append_ne_empty_left _ _
                    (append_ne_empty_left _ _ (by decide)))⟩
                simp only [summarizeEntryLines, pyGetE_dict, except_bind_ok, h1,
                  Bool.false_eq_true, if_false, h2, if_true, hresv, hok, hcal, hhlf,
                  except_pure_eq]
            | none => rw [hcal] at he; simp [isDictB] at he
            | bool b => rw [hcal] at he; simp [isDictB] at he
            | int n => rw [hcal] at he; simp [isDictB] at he
            | str s => rw [hcal] at he; simp [isDictB] at he
            | list l => rw [hcal] at he; simp [isDictB] at he
          · have hokf : truthy (pyLookupD rkvs "ok" PyVal.none) = false := by
              cases hh : truthy (pyLookupD rkvs "ok" PyVal.none)
              · rfl
              · exact absurd hh hok
            refine ⟨["Failed to create appointment: "
                ++ pyStr (pyLookupD rkvs "error" PyVal.none)], ?_, _,
              List.mem_cons_self _ _, append_ne_empty_left _ _ (by decide)⟩
            simp only [summarizeEntryLines, pyGetE_dict, except_bind_ok, h1,
              Bool.false_eq_true, if_false, h2, if_true, hresv, hokf, except_pure_eq]
        | none => rw [hresv] at he; simp [createShape] at he
        | bool b => rw [hresv] at he; simp [createShape] at he
        | int n => rw [hresv] at he; simp [createShape] at he
        | str s => rw [hresv] at he; simp [createShape] at he
        | list xs => rw [hresv] at he; simp [createShape] at he
      · by_cases h3 : isStrEq (pyLookupD ekvs "tool" PyVal.none) "get_doctor_summary_report" = true
        · rw [if_neg h1, if_neg h2, if_pos h3] at he
          cases hresv : pyLookupD ekvs "result" (PyVal.dict []) with
          | dict rkvs =>
            rw [hresv] at he
            simp only [reportShape] at he
            by_cases hok : truthy (pyLookupD rkvs "ok" PyVal.none) = true
            · rw [if_pos hok] at he
              cases hst : pyLookupD rkvs "summary_text" PyVal.none with
              | str st =>
                simp only [hst] at he
                by_cases hstc : (st ≠ "" && strTrim st ≠ "") = true
                · have hstne : st ≠ "" := by
                    rw [Bool.and_eq_true] at hstc
                    exact of_decide_eq_true hstc.1
                  refine ⟨[st, "", "Notification sent: "
                      ++ (if truthy (pyLookupD rkvs "notification_sent" (PyVal.bool false))
                          then "Yes" else "No")], ?_, st, List.mem_cons_self _ _, hstne⟩
                  simp only [summarizeEntryLines, pyGetE_dict, except_bind_ok, h1,
                    Bool.false_eq_true, if_false, h2, h3, if_true, hresv, hok, hst, hstc,
                    except_pure_eq]
                · rw [if_neg hstc] at he
                  obtain ⟨ls, hraweq, x, hx, hxne⟩ := rawStatsLines_ok rkvs he
                  refine ⟨ls, ?_, x, hx, hxne⟩
                  have hstf : (st ≠ "" && strTrim st ≠ "") = false := by
                    cases hh : (st ≠ "" && strTrim st ≠ "")
                    · rfl
                    · exact absurd hh hstc
                  simp only [summarizeEntryLines, pyGetE_dict, except_bind_ok, h1,
                    Bool.false_eq_true, if_false, h2, h3, if_true, hresv, hok, hst, hstf,
                    hraweq, except_pure_eq]
              | none =>
                simp only [hst] at he
                obtain ⟨ls, hraweq, x, hx, hxne⟩ := rawStatsLines_ok rkvs he
                refine ⟨ls, ?_, x, hx, hxne⟩
                simp only [summarizeEntryLines, pyGetE_dict, except_bind_ok, h1,
                  Bool.false_eq_true, if_false, h2, h3, if_true, hresv, hok, hst, hraweq,
                  except_pure_eq]
              | bool b =>
                simp only [hst] at he
                obtain ⟨ls, hraweq, x, hx, hxne⟩ := rawStatsLines_ok rkvs he
                refine ⟨ls, ?_, x, hx, hxne⟩
                simp only [summarizeEntryLines, pyGetE_dict, except_bind_ok, h1,
                  Bool.false_eq_true, if_false, h2, h3, if_true, hresv, hok, hst, hraweq,
                  except_pure_eq]
              | int n =>
                simp only [hst] at he
                obtain ⟨ls, hraweq, x, hx, hxne⟩ := rawStatsLines_ok rkvs he
                refine ⟨ls, ?_, x, hx, hxne⟩
                simp only [summarizeEntryLines, pyGetE_dict, except_bind_ok, h1,
                  Bool.false_eq_true, if_false, h2, h3, if_true, hresv, hok, hst, hraweq,
                  except_pure_eq]
              | list l =>
                simp only [hst] at he
                obtain ⟨ls, hraweq, x, hx, hxne⟩ := rawStatsLines_ok rkvs he
                refine ⟨ls, ?_, x, hx, hxne⟩
                simp only [summarizeEntryLines, pyGetE_dict, except_bind_ok, h1,
                  Bool.false_eq_true, if_false, h2, h3, if_true, hresv, hok, hst, hraweq,
                  except_pure_eq]
              | dict d =>
                simp only [hst] at he
                obtain ⟨ls, hraweq, x, hx, hxne⟩ := rawStatsLines_ok rkvs he
                refine ⟨ls, ?_, x, hx, hxne⟩
                simp only [summarizeEntryLines, pyGetE_dict, except_bind_ok, h1,
                  Bool.false_eq_true, if_false, h2, h3, if_true, hresv, hok, hst, hraweq,
                  except_pure_eq]
            · have hokf : truthy (pyLookupD rkvs "ok" PyVal.none) = false := by
                cases hh : truthy (pyLookupD rkvs "ok" PyVal.none)
                · rfl
                · exact absurd hh hok
              refine ⟨["Stats error: " ++ pyStr (pyLookupD rkvs "error" PyVal.none)], ?_, _,
                List.mem_cons_self _ _, append_ne_empty_left _ _ (by decide)⟩
              simp only [summarizeEntryLines, pyGetE_dict, except_bind_ok, h1,
                Bool.false_eq_true, if_false, h2, h3, if_true, hresv, hokf, except_pure_eq]
          | none => rw [hresv] at he; simp [reportShape] at he
          | bool b => rw [hresv] at he; simp [reportShape] at he
          | int n => rw [hresv] at he; simp [reportShape] at he
          | str s => rw [hresv] at he; simp [reportShape] at he
          | list xs => rw [hresv] at he; simp [reportShape] at he
        · refine ⟨[dumps (pyLookupD ekvs "result" (PyVal.dict []))], ?_, _,
            List.mem_cons_self _ _, dumps_ne_empty _⟩
          have h1f : isStrEq (pyLookupD ekvs "tool" PyVal.none) "get_doctor_availability" = false := by
            cases hh : isStrEq (pyLookupD ekvs "tool" PyVal.none) "get_doctor_availability"
            · rfl
            · exact absurd hh h1
          have h2f : isStrEq (pyLookupD ekvs "tool" PyVal.none) "create_appointment" = false := by
            cases hh : isStrEq (pyLookupD ekvs "tool" PyVal.none) "create_appointment"
            · rfl
            · exact absurd hh h2
          have h3f : isStrEq (pyLookupD ekvs "tool" PyVal.none) "get_doctor_summary_report" = false := by
            cases hh : isStrEq (pyLookupD ekvs "tool" PyVal.none) "get_doctor_summary_report"
            · rfl
            · exact absurd hh h3
          simp only [summarizeEntryLines, pyGetE_dict, except_bind_ok, h1f, h2f, h3f,
            Bool.false_eq_true, if_false, except_pure_eq]
  | none => simp [definedEntry] at he
  | bool b => simp [definedEntry] at he
  | int n => simp [definedEntry] at he
  | str s => simp [definedEntry] at he
  | list xs => simp [definedEntry] at he

theorem fold_lines_ok (touts : List PyVal)
    (hd : ∀ e ∈ touts, definedEntry e = true) (acc : List String) :
    ∃ suf, touts.foldlM (fun acc entry => do
        let ls ← summarizeEntryLines entry
        pure (acc ++ ls)) acc = .ok (acc ++ suf) ∧
      (touts ≠ [] → ∃ x ∈ suf, x ≠ "") := by
  induction touts generalizing acc with
  | nil =>
    exact ⟨[], by simp [List.foldlM_nil, except_pure_eq], fun h => absurd rfl h⟩
  | cons e rest ih =>
    have he : definedEntry e = true := hd e (List.mem_cons_self _ _)
    obtain ⟨els, hels, x, hx, hxne⟩ := entry_lines_ok e he
    obtain ⟨suf, hfold, _⟩ := ih (fun a ha => hd a (List.mem_cons_of_mem _ ha)) (acc ++ els)
    refine ⟨els ++ suf, ?_, fun _ => ⟨x, List.mem_append_left _ hx, hxne⟩⟩
    rw [List.foldlM_cons]
    simp only [hels, except_bind_ok, except_pure_eq]
    simp only [except_pure_eq] at hfold
    rw [hfold, List.append_assoc]

theorem joinNL_ne_of_mem (l : List String) (x : String) (hx : x ∈ l) (hne : x ≠ "") :
    joinNL l ≠ "" := by
  match l with
  | [] => exact absurd hx (List.not_mem_nil x)
  | [a] =>
    have hxa : x = a := by simpa using hx
    subst hxa
    simpa [joinNL] using hne
  | a :: b :: rest =>
    show a ++ "\n" ++ joinNL (b :: rest) ≠ ""
    intro h
    have hl := congrArg String.length h
    rw [String.length_append, String.length_append] at hl
    have h1 : String.length "\n" = 1 := rfl
    have h0 : String.length "" = 0 := rfl
    omega

/-- C7: the Deterministic Summarizer is total: for every list of tool-call
entries whose results have one of the defined success or error shapes of the
three registered tools (entries with unknown tool names unconstrained),
`summarize_tool_outputs` returns non-empty text without raising; the empty
list yields exactly `"No results."`; and the summarizer is a pure function,
so summarizing the same ordered list twice yields identical text. -/
theorem summarizer_total :
    (∀ touts : List PyVal, (∀ e ∈ touts, definedEntry e = true) →
        ∃ s, summarize_tool_outputs touts = .ok s ∧ s ≠ "") ∧
    summarize_tool_outputs [] = .ok "No results." ∧
    (∀ touts : List PyVal,
        summarize_tool_outputs touts = summarize_tool_outputs touts) := by
  refine ⟨?_, rfl, fun _ => rfl⟩
  intro touts hd
  obtain ⟨suf, hfold, hmem⟩ := fold_lines_ok touts hd []
  cases touts with
  | nil => exact ⟨"No results.", rfl, by decide⟩
  | cons e rest =>
    obtain ⟨x, hx, hxne⟩ := hmem (by simp)
    have hsne : suf ≠ [] := by
      intro h
      rw [h] at hx
      exact absurd hx (List.not_mem_nil x)
    have hie : suf.isEmpty = false := by
      cases suf
      · exact absurd rfl hsne
      · rfl
    refine ⟨joinNL suf, ?_, joinNL_ne_of_mem suf x hx hxne⟩
    simp only [summarize_tool_outputs]
    rw [hfold]
    simp only [except_bind_ok, List.nil_append, hie, Bool.false_eq_true, if_false,
      except_pure_eq]

/-- Witness: `summarizer_total` applied to a concrete three-entry list
(an availability success with no free slots, a create_appointment error, and
an unknown tool name). -/
theorem summarizer_total_witness :
    ∃ s, summarize_tool_outputs
      [PyVal.dict [("tool", PyVal.str "get_doctor_availability"),
        ("result", PyVal.dict [("available_slots", PyVal.list [])])],
       PyVal.dict [("tool", PyVal.str "create_appointment"),
        ("result", PyVal.dict [("ok", PyVal.bool false),
          ("error", PyVal.str "Doctor not found")])],
       PyVal.dict [("tool", PyVal.str "frobnicate"),
        ("result", PyVal.dict [("foo", PyVal.int 1)])]] = .ok s ∧ s ≠ "" := by
  refine summarizer_total.1 _ ?_
  intro e he
  simp only [List.mem_cons, List.not_mem_nil, or_false] at he
  rcases he with h | h | h
  · rw [h]; rfl
  · rw [h]; rfl
  · rw [h]; rfl

/-- C6: in fallback mode, a message classified as a report/stats query (a
stats keyword present, no availability keyword) from a caller whose role is
not `doctor` yields the polite doctor-only refusal with an empty tool-call
trace and an unchanged world (so no stats tool is dispatched at all), while
the same classification with role exactly `doctor` dispatches
`get_doctor_summary_report` (the single tool-call entry names it and the
world advances to the dispatch's world) and returns the rendered report
with the notification line. -/
theorem stats_intent_rbac (w : World) (message : String) (token_info role : PyVal)
    (hstats : (pyIn "how many" (strLower message) || pyIn "patients" (strLower message)
        || pyIn "visited" (strLower message)) = true)
    (havail : (pyIn "availability" (strLower message) || pyIn "available" (strLower message)
        || pyIn "slots" (strLower message)) = false)
    (hrole : roleOfToken token_info = .ok role) :
    (isStrEq role "doctor" = false →
      mock_agent_reply w message token_info =
        .ok ({ reply := "Only doctors can view detailed appointment reports. Please contact your doctor for this information.",
               tool_calls := [] }, w)) ∧
    (∀ (dn : String) (rd : PyVal) (rkvs : List (String × PyVal)) (w2 : World) (st : String),
      isStrEq role "doctor" = true →
      dn = (match searchDr message.toList with
        | Option.none => "Dr. Ahuja"
        | some tok => "Dr. " ++ pyTitle tok) →
      rd = (if pyIn "yesterday" (strLower message) then PyVal.str (predDate w.today).isoformat
        else if pyIn "tomorrow" (strLower message) then PyVal.str (succDate w.today).isoformat
        else if pyIn "today" (strLower message) then PyVal.str w.today.isoformat
        else PyVal.none) →
      call_tool_by_name w "get_doctor_summary_report"
        (PyVal.dict [("doctor_name", PyVal.str dn), ("ref_date", rd),
          ("send_notification", PyVal.bool true)]) token_info = .ok (PyVal.dict rkvs, w2) →
      truthy (pyLookupD rkvs "ok" PyVal.none) = true →
      pyLookupD rkvs "summary_text" PyVal.none = PyVal.str st →
      (st ≠ "" && strTrim st ≠ "") = true →
      mock_agent_reply w message token_info =
        .ok ({ reply := st ++ "\n\nNotification sent: "
                 ++ (if truthy (pyLookupD rkvs "notification_sent" (PyVal.bool false))
                     then "Yes" else "No"),
               tool_calls := [PyVal.dict [("tool", PyVal.str "get_doctor_summary_report"),
                 ("args", PyVal.dict [("doctor_name", PyVal.str dn), ("ref_date", rd),
                   ("send_notification", PyVal.bool true)]),
                 ("result", PyVal.dict rkvs)]] }, w2)) := by
  constructor
  · intro hA
    simp only [mock_agent_reply, hrole, except_bind_ok, havail, Bool.false_eq_true, if_false,
      hstats, eq_self_iff_true, if_true, hA, except_pure_eq]
  · intro dn rd rkvs w2 st hB hdn hrd hc hok hst hstc
    subst hdn
    subst hrd
    simp only [mock_agent_reply, hrole, except_bind_ok, havail, Bool.false_eq_true, if_false,
      hstats, eq_self_iff_true, if_true, hB, Bool.true_eq_false, hc, pyGetE_dict, hok, hst,
      hstc, except_pure_eq]

/-- The report-tool result for the sample world at reference date
`2025-11-30` with a doctor-role token (insertion order as produced by
`get_doctor_summary_report`). -/
def statsReportKvs : List (String × PyVal) :=
  [("ok", PyVal.bool true), ("doctor", PyVal.str "Dr. Ahuja"),
   ("ref_date", PyVal.str "2025-11-30"),
   ("summary_text", PyVal.str "Summary report for Dr. Ahuja — 2025-11-30\n- Patients yesterday: 0\n- Patients today: 0\n- Patients tomorrow: 0\n- Reason breakdown:\n  • No categorized reasons for this date."),
   ("notification_sent", PyVal.bool false),
   ("notification_result", PyVal.dict [("ok", PyVal.bool false),
     ("error", PyVal.str "no_slack_webhook")]),
   ("raw_stats", PyVal.dict [("ok", PyVal.bool true), ("doctor", PyVal.str "Dr. Ahuja"),
     ("ref_date", PyVal.str "2025-11-30"), ("patients_yesterday", PyVal.int 0),
     ("patients_today", PyVal.int 0), ("patients_tomorrow", PyVal.int 0),
     ("reasons_breakdown", PyVal.dict []), ("top_reasons", PyVal.list [])])]

/-- Witness: `stats_intent_rbac` at the sample world and the message
`"how many patients yesterday"`, once with a patient token (refusal, no
dispatch) and once with a doctor token (report dispatched and rendered). -/
theorem stats_intent_rbac_witness :
    mock_agent_reply sampleWorld "how many patients yesterday"
        (PyVal.dict [("role", PyVal.str "patient")]) =
      .ok ({ reply := "Only doctors can view detailed appointment reports. Please contact your doctor for this information.",
             tool_calls := [] }, sampleWorld) ∧
    mock_agent_reply sampleWorld "how many patients yesterday"
        (PyVal.dict [("role", PyVal.str "doctor")]) =
      .ok ({ reply := "Summary report for Dr. Ahuja — 2025-11-30\n- Patients yesterday: 0\n- Patients today: 0\n- Patients tomorrow: 0\n- Reason breakdown:\n  • No categorized reasons for this date.\n\nNotification sent: No",
             tool_calls := [PyVal.dict [("tool", PyVal.str "get_doctor_summary_report"),
               ("args", PyVal.dict [("doctor_name", PyVal.str "Dr. Ahuja"),
                 ("ref_date", PyVal.str "2025-11-30"),
                 ("send_notification", PyVal.bool true)]),
               ("result", PyVal.dict statsReportKvs)]] },
           { sampleWorld with trace := ["get_doctor_summary_report"] }) :=
  ⟨(stats_intent_rbac sampleWorld "how many patients yesterday"
      (PyVal.dict [("role", PyVal.str "patient")]) (PyVal.str "patient")
      rfl rfl rfl).1 rfl,
   (stats_intent_rbac sampleWorld "how many patients yesterday"
      (PyVal.dict [("role", PyVal.str "doctor")]) (PyVal.str "doctor")
      rfl rfl rfl).2 "Dr. Ahuja" (PyVal.str "2025-11-30") statsReportKvs
      { sampleWorld with trace := ["get_doctor_summary_report"] }
      "Summary report for Dr. Ahuja — 2025-11-30\n- Patients yesterday: 0\n- Patients today: 0\n- Patients tomorrow: 0\n- Reason breakdown:\n  • No categorized reasons for this date."
      rfl rfl rfl rfl rfl rfl rfl⟩

end DobbeAI
